import Mathlib

/-! icinga2rt: event-to-ticket synchronisation

A shallow embedding of `ticket.go` (the permit function, the subject and
comment formatters and the `ticketUpdater` state machine), of
`openEventStreamer` of `main.go` and of `checkConfig` of `config.go`.

* Go `error` values are strings; a function returning `error` returns
  `Option String` (`none` is `nil`), a function returning `(T, error)`
  returns `Except String T`.
* The request tracker client (`rt.Client`) is a collaborator: it is a record
  of transition functions over an arbitrary state type `σ`, so every theorem
  holds for every behaviour of the ticket system.  Each call that the program
  issues is appended to a log (`world.calls`).
* Logging (`log.Printf`, the `debug` flag) has no effect on the state and is
  left out; so is `oldState` in `updateTicket`, which is only logged.
* The monitoring client (`icinga2.Client`) is a collaborator of the same kind;
  `time.Sleep` is recorded as the list of the durations it was called with.
  `time.Duration` is an `int64`: its arithmetic wraps modulo 2^64.
-/

namespace event

/-- Modelled from the spec: the check-result state `enum{OK, Warning, Critical,
Unknown}` of the data model; the Go declaration lives in the go-icinga2 `event`
package, which is not part of the sources. -/
inductive State where
  | StateOK
  | StateWarning
  | StateCritical
  | StateUnknown
  deriving DecidableEq, Repr

export State (StateOK StateWarning StateCritical StateUnknown)

/-- Modelled from the spec: the name of a state (`State.String()` of the
go-icinga2 `event` package), spelled as the data model spells the states. -/
def State.String : State → String
  | StateOK => "OK"
  | StateWarning => "Warning"
  | StateCritical => "Critical"
  | StateUnknown => "Unknown"

end event

namespace event

/-- The check result of a notification: the fields that `ticket.go` reads. -/
structure CheckResult where
  State : State
  Output : String
  deriving DecidableEq, Repr

/-- A notification (`event.Notification`): the fields that `ticket.go` reads.
The cache key of a notification is the pair (Host, Service). -/
structure Notification where
  Host : String
  Service : String
  CheckResult : CheckResult
  deriving DecidableEq, Repr

end event

namespace rt

/-- A ticket record of the request tracker (`rt.Ticket`): the fields that
`ticket.go` reads or writes.  A Go struct literal leaves the fields it does
not name at their zero value (`0`, the empty string). -/
structure Ticket where
  ID : Int
  Queue : String
  Owner : String
  Subject : String
  Status : String
  Text : String
  deriving DecidableEq, Repr

/-- One call issued to the ticket system, with its arguments. -/
inductive Call where
  | Ticket (id : Int)
  | NewTicket (ticket : rt.Ticket)
  | CommentTicket (id : Int) (comment : String)
  | UpdateTicket (ticket : rt.Ticket)
  deriving DecidableEq, Repr

/-- The ticket system client (`rt.Client`) as a collaborator: the four methods
that `ticket.go` calls, each a transition of the ticket system's state `σ`
that yields the method's result. -/
structure Client (σ : Type) where
  Ticket : Int → σ → Except String rt.Ticket × σ
  NewTicket : rt.Ticket → σ → Except String rt.Ticket × σ
  CommentTicket : Int → String → σ → Option String × σ
  UpdateTicket : rt.Ticket → σ → Except String rt.Ticket × σ

end rt

open event

/-- The type `permitFunc` of ticket.go. -/
abbrev permitFunc := Notification → Bool

/-- The loop of the closure that `newPermitFunc` returns: the first element
equal to the state of the notification answers `true`, running out of elements
answers `false`. -/
def permitLoop (e : Notification) : List State → Bool
  | [] => false
  | x :: rest => if e.CheckResult.State = x then true else permitLoop e rest

/-- The function `newPermitFunc` of ticket.go. -/
def newPermitFunc (permit : List State) : permitFunc :=
  fun e => permitLoop e permit

/-- The struct `eventTicket` of ticket.go. -/
structure eventTicket where
  Event : Notification
  TicketID : Int
  deriving DecidableEq, Repr

/-- Modelled from the spec: the event cache (`cache.go` is not part of the
sources).  At most one `eventTicket` per (host, service) key; the durable
store behind it is either available (`ioError = none`) or unavailable/corrupt,
and then every operation fails with the storage error and changes nothing. -/
structure cache where
  entries : String × String → Option eventTicket
  ioError : Option String

/-- Modelled from the spec: `lookup(host, service) -> EventTicket or absent`,
which never fails except on a storage I/O error (`cache.getEventTicket`, whose
code is not part of the sources). -/
def cache.getEventTicket (c : cache) (e : Notification) : Except String (Option eventTicket) :=
  match c.ioError with
  | some err => .error err
  | none => .ok (c.entries (e.Host, e.Service))

/-- Modelled from the spec: `upsert(notification, ticketID)` records or
overwrites the EventTicket for the key of the notification
(`cache.updateEventTicket`, whose code is not part of the sources). -/
def cache.updateEventTicket (c : cache) (e : Notification) (ticketID : Int) : Option String × cache :=
  match c.ioError with
  | some err => (some err, c)
  | none =>
    (none, { c with entries := fun k =>
      if k = (e.Host, e.Service) then some { Event := e, TicketID := ticketID } else c.entries k })

/-- Modelled from the spec: `delete(host, service)` removes the entry and is a
no-op if it is absent (`cache.deleteEventTicket`, whose code is not part of the
sources). -/
def cache.deleteEventTicket (c : cache) (e : Notification) : Option String × cache :=
  match c.ioError with
  | some err => (some err, c)
  | none =>
    (none, { c with entries := fun k => if k = (e.Host, e.Service) then none else c.entries k })

/-- The function `formatEventSubject` of ticket.go. -/
def formatEventSubject (e : Notification) : String :=
  if e.Host ≠ "" ∧ e.Service ≠ "" then
    "Host: " ++ e.Host ++ " Service: " ++ e.Service ++ " is " ++ e.CheckResult.State.String
  else if e.Host ≠ "" ∧ e.Service = "" then
    "Host: " ++ e.Host ++ " is " ++ e.CheckResult.State.String
  else
    "Host: " ++ e.Host ++ " Service: " ++ e.Service ++ " is " ++ e.CheckResult.State.String

/-- The function `formatEventComment` of ticket.go. -/
def formatEventComment (e : Notification) : String :=
  if e.CheckResult.Output ≠ "" then
    "New status: " ++ e.CheckResult.State.String ++ " Output: " ++ e.CheckResult.Output
  else
    e.CheckResult.State.String

/-- The struct `ticketUpdater` of ticket.go; the cache it points to and the
state of the ticket system behind `rtClient` are in `world`. -/
structure ticketUpdater (σ : Type) where
  rtClient : rt.Client σ
  pf : permitFunc
  nobody : String
  queue : String

/-- The mutable state that a `ticketUpdater` works on: the cache, the state of
the ticket system, and the log of the calls issued to the ticket system so
far, oldest first. -/
structure world (σ : Type) where
  cache : cache
  rtState : σ
  calls : List rt.Call

variable {σ : Type}

/-- The call `t.rtClient.Ticket(ticketID)`, logged. -/
def ticketUpdater.callTicket (t : ticketUpdater σ) (ticketID : Int) (w : world σ) :
    Except String rt.Ticket × world σ :=
  ((t.rtClient.Ticket ticketID w.rtState).1,
    { w with rtState := (t.rtClient.Ticket ticketID w.rtState).2, calls := w.calls ++ [rt.Call.Ticket ticketID] })

/-- The call `t.rtClient.NewTicket(ticket)`, logged. -/
def ticketUpdater.callNewTicket (t : ticketUpdater σ) (ticket : rt.Ticket) (w : world σ) :
    Except String rt.Ticket × world σ :=
  ((t.rtClient.NewTicket ticket w.rtState).1,
    { w with rtState := (t.rtClient.NewTicket ticket w.rtState).2, calls := w.calls ++ [rt.Call.NewTicket ticket] })

/-- The call `t.rtClient.CommentTicket(ticketID, comment)`, logged. -/
def ticketUpdater.callCommentTicket (t : ticketUpdater σ) (ticketID : Int) (comment : String)
    (w : world σ) : Option String × world σ :=
  ((t.rtClient.CommentTicket ticketID comment w.rtState).1,
    { w with rtState := (t.rtClient.CommentTicket ticketID comment w.rtState).2,
             calls := w.calls ++ [rt.Call.CommentTicket ticketID comment] })

/-- The call `t.rtClient.UpdateTicket(ticket)`, logged. -/
def ticketUpdater.callUpdateTicket (t : ticketUpdater σ) (ticket : rt.Ticket) (w : world σ) :
    Except String rt.Ticket × world σ :=
  ((t.rtClient.UpdateTicket ticket w.rtState).1,
    { w with rtState := (t.rtClient.UpdateTicket ticket w.rtState).2, calls := w.calls ++ [rt.Call.UpdateTicket ticket] })

/-- The method `createTicket` of ticket.go. -/
def ticketUpdater.createTicket (t : ticketUpdater σ) (e : Notification) (w : world σ) :
    Option String × world σ :=
  let ticket : rt.Ticket :=
    { ID := 0, Queue := t.queue, Owner := "", Subject := formatEventSubject e, Status := "",
      Text := "Output: " ++ e.CheckResult.Output }
  match t.callNewTicket ticket w with
  | (.error err, w1) => (some err, w1)
  | (.ok newTicket, w1) =>
    match w1.cache.updateEventTicket e newTicket.ID with
    | (some err, c) => (some err, { w1 with cache := c })
    | (none, c) => (none, { w1 with cache := c })

/-- The method `commentTicket` of ticket.go. -/
def ticketUpdater.commentTicket (t : ticketUpdater σ) (newEvent _oldEvent : Notification)
    (ticketID : Int) (w : world σ) : Option String × world σ :=
  match t.callCommentTicket ticketID (formatEventComment newEvent) w with
  | (some err, w1) => (some err, w1)
  | (none, w1) =>
    match w1.cache.updateEventTicket newEvent ticketID with
    | (some err, c) => (some err, { w1 with cache := c })
    | (none, c) => (none, { w1 with cache := c })

/-- The method `deleteTicket` of ticket.go. -/
def ticketUpdater.deleteTicket (t : ticketUpdater σ) (newEvent _oldEvent : Notification)
    (ticketID : Int) (w : world σ) : Option String × world σ :=
  let newTicket : rt.Ticket :=
    { ID := ticketID, Queue := "", Owner := "", Subject := "", Status := "deleted", Text := "" }
  match t.callUpdateTicket newTicket w with
  | (.error err, w1) => (some err, w1)
  | (.ok _updatedTicket, w1) =>
    match w1.cache.deleteEventTicket newEvent with
    | (some err, c) => (some err, { w1 with cache := c })
    | (none, c) => (none, { w1 with cache := c })

/-- The method `deleteOrCommentTicket` of ticket.go. -/
def ticketUpdater.deleteOrCommentTicket (t : ticketUpdater σ) (newEvent oldEvent : Notification)
    (ticketID : Int) (w : world σ) : Option String × world σ :=
  match t.callTicket ticketID w with
  | (.error err, w1) => (some err, w1)
  | (.ok oldTicket, w1) =>
    if oldTicket.Owner = t.nobody then
      t.deleteTicket newEvent oldEvent ticketID w1
    else
      match t.commentTicket newEvent oldEvent ticketID w1 with
      | (some err, w2) => (some err, w2)
      | (none, w2) =>
        ((w2.cache.deleteEventTicket newEvent).1,
          { w2 with cache := (w2.cache.deleteEventTicket newEvent).2 })

/-- The method `oldEvent` of ticket.go. -/
def ticketUpdater.oldEvent (t : ticketUpdater σ) (newEvent oldEvent : Notification)
    (ticketID : Int) (w : world σ) : Option String × world σ :=
  match t.callTicket ticketID w with
  | (.error _, w1) => t.createTicket newEvent w1
  | (.ok oldTicket, w1) =>
    if oldTicket.Status = "deleted" then
      t.createTicket newEvent w1
    else if newEvent.CheckResult.State = StateOK then
      t.deleteOrCommentTicket newEvent oldEvent ticketID w1
    else if newEvent.CheckResult.State ≠ oldEvent.CheckResult.State then
      t.commentTicket newEvent oldEvent ticketID w1
    else
      (none, w1)

/-- The method `newEvent` of ticket.go. -/
def ticketUpdater.newEvent (t : ticketUpdater σ) (e : Notification) (w : world σ) :
    Option String × world σ :=
  if e.CheckResult.State = StateOK then
    (none, w)
  else
    t.createTicket e w

/-- The method `updateTicket` of ticket.go. -/
def ticketUpdater.updateTicket (t : ticketUpdater σ) (e : Notification) (w : world σ) :
    Option String × world σ :=
  match w.cache.getEventTicket e with
  | .error err => (some err, w)
  | .ok et =>
    if ¬ t.pf e = true then
      (none, w)
    else
      match et with
      | none => t.newEvent e w
      | some et => t.oldEvent e et.Event et.TicketID w

/-! A concrete ticket system

An in-memory ticket system over a list of tickets, used to instantiate the
theorems below at concrete inputs. -/

/-- In-memory ticket system: look a ticket up by its id. -/
def memTicket (id : Int) (s : List rt.Ticket) : Except String rt.Ticket × List rt.Ticket :=
  match s.find? (fun x => decide (x.ID = id)) with
  | some x => (.ok x, s)
  | none => (.error "ticket not found", s)

/-- In-memory ticket system: store a new ticket under the next free id, with
status "new" and owner "Nobody". -/
def memNewTicket (ticket : rt.Ticket) (s : List rt.Ticket) :
    Except String rt.Ticket × List rt.Ticket :=
  (.ok { ticket with ID := s.length + 1, Status := "new", Owner := "Nobody" },
    s ++ [{ ticket with ID := s.length + 1, Status := "new", Owner := "Nobody" }])

/-- In-memory ticket system: commenting succeeds on a stored ticket. -/
def memCommentTicket (id : Int) (_comment : String) (s : List rt.Ticket) :
    Option String × List rt.Ticket :=
  if s.any (fun x => decide (x.ID = id)) then (none, s) else (some "ticket not found", s)

/-- In-memory ticket system: set the status of a stored ticket. -/
def memUpdateTicket (ticket : rt.Ticket) (s : List rt.Ticket) :
    Except String rt.Ticket × List rt.Ticket :=
  match s.find? (fun x => decide (x.ID = ticket.ID)) with
  | some x =>
    (.ok { x with Status := ticket.Status },
      s.map (fun y => if y.ID = ticket.ID then { y with Status := ticket.Status } else y))
  | none => (.error "ticket not found", s)

/-- The in-memory ticket system as a client. -/
def memClient : rt.Client (List rt.Ticket) where
  Ticket := memTicket
  NewTicket := memNewTicket
  CommentTicket := memCommentTicket
  UpdateTicket := memUpdateTicket

/-- An updater over the in-memory ticket system that permits every state, with
the queue and the nobody sentinel of the default configuration. -/
def memUpdater : ticketUpdater (List rt.Ticket) where
  rtClient := memClient
  pf := newPermitFunc [StateOK, StateWarning, StateCritical, StateUnknown]
  nobody := "Nobody"
  queue := "general"

/-- An updater over the in-memory ticket system that permits only the
Critical state. -/
def criticalUpdater : ticketUpdater (List rt.Ticket) where
  rtClient := memClient
  pf := newPermitFunc [StateCritical]
  nobody := "Nobody"
  queue := "general"

/-- The empty cache on an available store. -/
def emptyCache : cache where
  entries := fun _ => none
  ioError := none

/-- A cache on an available store with one entry, for the key of `e`. -/
def singleCache (e : Notification) (ticketID : Int) : cache where
  entries := fun k => if k = (e.Host, e.Service) then some { Event := e, TicketID := ticketID } else none
  ioError := none

/-- Host-level notification for host "h1". -/
def hostEvent (s : State) (output : String) : Notification where
  Host := "h1"
  Service := ""
  CheckResult := { State := s, Output := output }

/-- Service-level notification for service "svc" of host "h1". -/
def serviceEvent (s : State) (output : String) : Notification where
  Host := "h1"
  Service := "svc"
  CheckResult := { State := s, Output := output }

/-- A stored ticket with the given id, owner and status. -/
def storedTicket (id : Int) (owner status : String) : rt.Ticket where
  ID := id
  Queue := "general"
  Owner := owner
  Subject := "Host: h1 is Critical"
  Status := status
  Text := "Output: down"

/-- The number of `CommentTicket` calls in a call log. -/
def commentCalls (calls : List rt.Call) : Nat :=
  (calls.filter (fun c => match c with | rt.Call.CommentTicket _ _ => true | _ => false)).length

/-- A scripted ticket system: the state is the list of the answers that the
coming lookups give, in order (a lookup on the empty script fails); create,
comment and status update always succeed. -/
def scriptClient : rt.Client (List (Except String rt.Ticket)) where
  Ticket := fun _ s =>
    match s with
    | [] => (.error "ticket not found", [])
    | answer :: rest => (answer, rest)
  NewTicket := fun ticket s => (.ok { ticket with ID := 2, Status := "new", Owner := "Nobody" }, s)
  CommentTicket := fun _ _ s => (none, s)
  UpdateTicket := fun ticket s => (.ok ticket, s)

/-- An updater over the scripted ticket system that permits every state. -/
def scriptUpdater : ticketUpdater (List (Except String rt.Ticket)) where
  rtClient := scriptClient
  pf := newPermitFunc [StateOK, StateWarning, StateCritical, StateUnknown]
  nobody := "Nobody"
  queue := "general"

/-- A scripted ticket system that answers lookups like `scriptClient` and
refuses every create, comment and status update. -/
def refusingClient : rt.Client (List (Except String rt.Ticket)) where
  Ticket := fun _ s =>
    match s with
    | [] => (.error "ticket not found", [])
    | answer :: rest => (answer, rest)
  NewTicket := fun _ s => (.error "create refused", s)
  CommentTicket := fun _ _ s => (some "comment refused", s)
  UpdateTicket := fun _ s => (.error "update refused", s)

/-- An updater over the refusing ticket system that permits every state. -/
def refusingUpdater : ticketUpdater (List (Except String rt.Ticket)) where
  rtClient := refusingClient
  pf := newPermitFunc [StateOK, StateWarning, StateCritical, StateUnknown]
  nobody := "Nobody"
  queue := "general"

/-- Whether a logged call is a mutation of the ticket system (create, comment
or status update) rather than a lookup. -/
def rt.Call.isMutation : rt.Call → Bool
  | rt.Call.Ticket _ => false
  | rt.Call.NewTicket _ => true
  | rt.Call.CommentTicket _ _ => true
  | rt.Call.UpdateTicket _ => true

/-- The error of a `(T, error)` result, `none` for `nil`. -/
def errorOf {α : Type} : Except String α → Option String
  | .error err => some err
  | .ok _ => none

/-- What the client answers to a logged call in ticket-system state `s`: the
error it returns (`none` for `nil`) and the state it leaves. -/
def rt.Client.answer (c : rt.Client σ) : rt.Call → σ → Option String × σ
  | rt.Call.Ticket id, s => (errorOf (c.Ticket id s).1, (c.Ticket id s).2)
  | rt.Call.NewTicket ticket, s => (errorOf (c.NewTicket ticket s).1, (c.NewTicket ticket s).2)
  | rt.Call.CommentTicket id comment, s => (c.CommentTicket id comment s)
  | rt.Call.UpdateTicket ticket, s =>
    (errorOf (c.UpdateTicket ticket s).1, (c.UpdateTicket ticket s).2)

/-- The ticket-system state reached from `s` by the logged calls, in order. -/
def rt.Client.replay (c : rt.Client σ) : List rt.Call → σ → σ
  | [], s => s
  | call :: rest, s => c.replay rest (c.answer call s).2

/-! What a step leaves in the cache for a key whose entry held ticket id `X` -/

/-- After `updateTicket e` on `w` the entry for the key of `e` still holds the
ticket id `X`. -/
def entryKept (t : ticketUpdater σ) (e : Notification) (w : world σ) (X : Int) : Prop :=
  ∃ entry, (t.updateTicket e w).2.cache.getEventTicket e = .ok (some entry) ∧ entry.TicketID = X

/-- After `updateTicket e` on `w` the entry for the key of `e` holds a newly
created ticket id: an id other than `X`, the one that the create call issued
after the lookup of `X` returned; and the lookup of `X` failed or returned the
status "deleted". -/
def entryReplaced (t : ticketUpdater σ) (e : Notification) (w : world σ) (X : Int) : Prop :=
  ∃ entry newTicket,
    (t.updateTicket e w).2.cache.getEventTicket e = .ok (some entry) ∧
    entry.TicketID ≠ X ∧
    (t.rtClient.NewTicket
      { ID := 0, Queue := t.queue, Owner := "", Subject := formatEventSubject e, Status := "",
        Text := "Output: " ++ e.CheckResult.Output }
      (t.rtClient.Ticket X w.rtState).2).1 = .ok newTicket ∧
    entry.TicketID = newTicket.ID ∧
    ((∃ err, (t.rtClient.Ticket X w.rtState).1 = .error err) ∨
      (∃ old, (t.rtClient.Ticket X w.rtState).1 = .ok old ∧ old.Status = "deleted"))

/-- After `updateTicket e` on `w` the entry for the key of `e` has been
removed, the state of `e` is OK, and the lookup of `X` found the ticket with a
status other than "deleted". -/
def entryRemoved (t : ticketUpdater σ) (e : Notification) (w : world σ) (X : Int) : Prop :=
  (t.updateTicket e w).2.cache.getEventTicket e = .ok none ∧
  e.CheckResult.State = StateOK ∧
  ∃ old, (t.rtClient.Ticket X w.rtState).1 = .ok old ∧ old.Status ≠ "deleted"

/-! The stream consumer of main.go -/

namespace icinga2

/-- The monitoring client (`icinga2.Client`) as a collaborator: the method
`EventStream(queue, filter, streamtype...)` is a transition of the state `ι`
of the monitoring side that yields a stream of type `ρ` or an error; `τ` is
the type of the stream types. -/
structure Client (ι ρ τ : Type) where
  EventStream : String → String → List τ → ι → Except String ρ × ι

end icinga2

/-- What `openEventStreamer` acts on: the state of the monitoring side, the
number of `EventStream` calls made so far, and the durations passed to
`time.Sleep` so far, oldest first, in nanoseconds (the unit of
`time.Duration`). -/
structure streamWorld (ι : Type) where
  icingaState : ι
  attempts : Nat
  sleeps : List Int

/-- The value that a Go `int64` holds after an arithmetic operation whose
exact result is `x`: the result wraps around modulo 2^64. -/
def wrapInt64 (x : Int) : Int :=
  (x + 2 ^ 63) % 2 ^ 64 - 2 ^ 63

/-- The constant `time.Second`, in nanoseconds. -/
def timeSecond : Int := 1000000000

/-- The expression `time.Duration(1<<exp) * time.Second` of main.go: the shift
and the product are `int64` operations (`time.Duration` is an `int64`). -/
def backoffDuration (exp : Nat) : Int :=
  wrapInt64 (wrapInt64 (1 * 2 ^ exp) * timeSecond)

variable {ι ρ τ : Type}

/-- The loop `for tries := 0; tries < retries; tries++` of `openEventStreamer`
with `remaining = retries - tries` iterations left; `exp` is a `uint` and `err`
the variable declared before the loop. -/
def openEventStreamerLoop (icingaClient : icinga2.Client ι ρ τ) (queue filter : String)
    (streamtype : List τ) :
    Nat → Nat → Option String → streamWorld ι → (Option ρ × Option String) × streamWorld ι
  | 0, _, err, w => ((none, err), w)
  | remaining + 1, exp, _, w =>
    match icingaClient.EventStream queue filter streamtype w.icingaState with
    | (.error err, s) =>
      openEventStreamerLoop icingaClient queue filter streamtype remaining ((exp + 1) % 2 ^ 64)
        (some err)
        { icingaState := s, attempts := w.attempts + 1,
          sleeps := w.sleeps ++ [backoffDuration exp] }
    | (.ok r, s) =>
      ((some r, none), { icingaState := s, attempts := w.attempts + 1, sleeps := w.sleeps })

/-- The function `openEventStreamer` of main.go: the returned pair is the
reader (`none` for `nil`) and the error (`none` for `nil`). -/
def openEventStreamer (retries : Int) (icingaClient : icinga2.Client ι ρ τ) (queue filter : String)
    (streamtype : List τ) (w : streamWorld ι) : (Option ρ × Option String) × streamWorld ι :=
  openEventStreamerLoop icingaClient queue filter streamtype retries.toNat 0 none w

/-- The constant `icingaQueueName` of main.go. -/
def icingaQueueName : String := "icinga2rt"

/-- A monitoring side that refuses every connection. -/
def downIcinga : icinga2.Client Unit String String where
  EventStream := fun _ _ _ s => (.error "connection refused", s)

/-- A monitoring side whose state is the number of connections it still
refuses before it accepts one. -/
def flakyIcinga : icinga2.Client Nat String String where
  EventStream := fun _ _ _ s =>
    match s with
    | 0 => (.ok "stream", 0)
    | n + 1 => (.error "connection refused", n)

/-! The configuration of config.go -/

/-- The struct `icingaConfig` of config.go. -/
structure icingaConfig where
  URL : String
  User : String
  Password : String
  Insecure : Bool
  Retries : Int
  deriving DecidableEq, Repr

/-- The struct `rtConfig` of config.go. -/
structure rtConfig where
  URL : String
  User : String
  Password : String
  Insecure : Bool
  deriving DecidableEq, Repr

/-- The struct `cacheConfig` of config.go. -/
structure cacheConfig where
  File : String
  deriving DecidableEq, Repr

/-- The struct `ticketConfig` of config.go; a `nil` slice is the empty list. -/
structure ticketConfig where
  PermitFunction : List State
  Nobody : String
  Queue : String
  deriving DecidableEq, Repr

/-- The struct `config` of config.go. -/
structure config where
  Icinga : icingaConfig
  RT : rtConfig
  Cache : cacheConfig
  Ticket : ticketConfig
  deriving DecidableEq, Repr

/-- The variable `defaultConfig` of config.go. -/
def defaultConfig : config where
  Icinga :=
    { URL := "https://monitoring.example.com:5665", User := "root", Password := "secret",
      Insecure := true, Retries := 5 }
  RT :=
    { URL := "https://support.example.com", User := "apiuser", Password := "secret",
      Insecure := true }
  Cache := { File := "/var/lib/icinga2rt/icinga2rt.bolt" }
  Ticket :=
    { PermitFunction := [StateOK, StateWarning, StateCritical, StateUnknown],
      Nobody := "Nobody", Queue := "general" }

/-- The function `checkConfig` of config.go; `none` is the `nil` error. -/
def checkConfig (conf : config) : Option String :=
  if conf.Icinga.URL = "" then
    some "Icinga.URL must be set."
  else if conf.Icinga.User = "" then
    some "Icinga.User must be set."
  else if conf.Icinga.Retries = 0 then
    some "Icinga.Retries must be > 0."
  else if conf.Ticket.Queue = "" then
    some "Ticket.Queue must be set."
  else if conf.Ticket.Nobody = "" then
    some "Ticket.Nobody must be set."
  else if conf.Ticket.PermitFunction.length = 0 then
    some "Ticket.PermitFunction must be set."
  else if conf.Cache.File = "" then
    some "Cache.File must be set."
  else
    none

/-! Theorems -/

theorem permitLoop_iff_mem (e : Notification) (permit : List State) :
    permitLoop e permit = true ↔ e.CheckResult.State ∈ permit := by
  induction permit with
  | nil => simp [permitLoop]
  | cons x rest ih =>
    by_cases hx : e.CheckResult.State = x
    · simp [permitLoop, hx]
    · simp [permitLoop, hx, ih]

/-- C10: for every list of permitted states and every notification,
`newPermitFunc permit` answers true exactly when the check-result state of the
notification is an element of the list; for the empty list it answers false on
every notification. -/
theorem newPermitFunc_true_iff_mem (permit : List State) (e : Notification) :
    (newPermitFunc permit e = true ↔ e.CheckResult.State ∈ permit) ∧
      newPermitFunc [] e = false :=
  ⟨permitLoop_iff_mem e permit, rfl⟩

/-- C8: a permitted notification with state OK whose key has no cache entry
makes `updateTicket` return no error and leave the whole world as it was: the
call log (no lookup, create, comment or update call is added), the state of
the ticket system and the cache are unchanged. -/
theorem updateTicket_ok_without_entry (t : ticketUpdater σ) (e : Notification) (w : world σ)
    (hpf : t.pf e = true) (hstate : e.CheckResult.State = StateOK)
    (hget : w.cache.getEventTicket e = .ok none) :
    t.updateTicket e w = (none, w) := by
  simp [ticketUpdater.updateTicket, hget, hpf, ticketUpdater.newEvent, hstate]

theorem updateTicket_ok_without_entry_witness :
    memUpdater.pf (hostEvent StateOK "fine") = true ∧
    (hostEvent StateOK "fine").CheckResult.State = StateOK ∧
    emptyCache.getEventTicket (hostEvent StateOK "fine") = .ok none ∧
    memUpdater.updateTicket (hostEvent StateOK "fine")
        ⟨emptyCache, [storedTicket 1 "Nobody" "new"], [rt.Call.Ticket 1]⟩ =
      (none, ⟨emptyCache, [storedTicket 1 "Nobody" "new"], [rt.Call.Ticket 1]⟩) :=
  ⟨by decide, rfl, rfl,
    updateTicket_ok_without_entry memUpdater (hostEvent StateOK "fine")
      ⟨emptyCache, [storedTicket 1 "Nobody" "new"], [rt.Call.Ticket 1]⟩ (by decide) rfl rfl⟩

/-- C9: a notification that the permit function rejects, whatever the cache
lookup finds for its key (an entry or none), makes `updateTicket` return no
error and leave the whole world as it was: no ticket-system call is issued
and the cache is unchanged. -/
theorem updateTicket_not_permitted (t : ticketUpdater σ) (e : Notification) (w : world σ)
    (found : Option eventTicket)
    (hpf : t.pf e = false) (hget : w.cache.getEventTicket e = .ok found) :
    t.updateTicket e w = (none, w) := by
  simp [ticketUpdater.updateTicket, hget, hpf]

theorem updateTicket_not_permitted_witness :
    criticalUpdater.pf (hostEvent StateWarning "slow") = false ∧
    (singleCache (hostEvent StateCritical "down") 1).getEventTicket (hostEvent StateWarning "slow") =
      .ok (some ⟨hostEvent StateCritical "down", 1⟩) ∧
    criticalUpdater.updateTicket (hostEvent StateWarning "slow")
        ⟨singleCache (hostEvent StateCritical "down") 1, [storedTicket 1 "Nobody" "new"], []⟩ =
      (none, ⟨singleCache (hostEvent StateCritical "down") 1, [storedTicket 1 "Nobody" "new"], []⟩) :=
  ⟨by decide, rfl,
    updateTicket_not_permitted criticalUpdater (hostEvent StateWarning "slow")
      ⟨singleCache (hostEvent StateCritical "down") 1, [storedTicket 1 "Nobody" "new"], []⟩
      (some ⟨hostEvent StateCritical "down", 1⟩) (by decide) rfl⟩

theorem getEventTicket_ok_ioError {c : cache} {e : Notification} {found : Option eventTicket}
    (h : c.getEventTicket e = .ok found) : c.ioError = none := by
  unfold cache.getEventTicket at h
  cases hio : c.ioError with
  | none => rfl
  | some err => simp [hio] at h

theorem getEventTicket_updateEventTicket (c : cache) (e : Notification) (ticketID : Int)
    (h : c.ioError = none) :
    (c.updateEventTicket e ticketID).2.getEventTicket e =
      .ok (some { Event := e, TicketID := ticketID }) := by
  simp [cache.updateEventTicket, cache.getEventTicket, h]

theorem getEventTicket_deleteEventTicket (c : cache) (e : Notification) (h : c.ioError = none) :
    (c.deleteEventTicket e).2.getEventTicket e = .ok none := by
  simp [cache.deleteEventTicket, cache.getEventTicket, h]

theorem createTicket_of_success (t : ticketUpdater σ) (e : Notification) (w : world σ)
    (newTicket : rt.Ticket) (s : σ) (hio : w.cache.ioError = none)
    (hnew : t.rtClient.NewTicket
        { ID := 0, Queue := t.queue, Owner := "", Subject := formatEventSubject e, Status := "",
          Text := "Output: " ++ e.CheckResult.Output } w.rtState = (.ok newTicket, s)) :
    t.createTicket e w =
      (none, { cache := (w.cache.updateEventTicket e newTicket.ID).2, rtState := s,
               calls := w.calls ++ [rt.Call.NewTicket
                 { ID := 0, Queue := t.queue, Owner := "", Subject := formatEventSubject e,
                   Status := "", Text := "Output: " ++ e.CheckResult.Output }] }) := by
  simp [ticketUpdater.createTicket, ticketUpdater.callNewTicket, hnew, cache.updateEventTicket, hio]

theorem commentTicket_of_success (t : ticketUpdater σ) (newEvent oldEvent : Notification)
    (ticketID : Int) (w : world σ) (s : σ) (hio : w.cache.ioError = none)
    (hcomment : t.rtClient.CommentTicket ticketID (formatEventComment newEvent) w.rtState =
      (none, s)) :
    t.commentTicket newEvent oldEvent ticketID w =
      (none, { cache := (w.cache.updateEventTicket newEvent ticketID).2, rtState := s,
               calls := w.calls ++ [rt.Call.CommentTicket ticketID (formatEventComment newEvent)] }) := by
  simp [ticketUpdater.commentTicket, ticketUpdater.callCommentTicket, hcomment,
    cache.updateEventTicket, hio]

/-- C1: for a permitted notification whose state is not OK and whose key has
no cache entry, if the create call (queue = the configured queue, subject =
`formatEventSubject e`, text = "Output: " followed by the check-result output)
succeeds and returns `newTicket`, then `updateTicket` returns no error, adds
exactly that one create call to the call log (no comment, no status update),
and afterwards the cache entry for the key is (e, newTicket.ID). -/
theorem updateTicket_creates_without_entry (t : ticketUpdater σ) (e : Notification) (w : world σ)
    (newTicket : rt.Ticket) (s : σ)
    (hpf : t.pf e = true) (hstate : e.CheckResult.State ≠ StateOK)
    (hget : w.cache.getEventTicket e = .ok none)
    (hnew : t.rtClient.NewTicket
        { ID := 0, Queue := t.queue, Owner := "", Subject := formatEventSubject e, Status := "",
          Text := "Output: " ++ e.CheckResult.Output } w.rtState = (.ok newTicket, s)) :
    (t.updateTicket e w).1 = none ∧
    (t.updateTicket e w).2.calls = w.calls ++ [rt.Call.NewTicket
        { ID := 0, Queue := t.queue, Owner := "", Subject := formatEventSubject e, Status := "",
          Text := "Output: " ++ e.CheckResult.Output }] ∧
    (t.updateTicket e w).2.cache.getEventTicket e =
      .ok (some { Event := e, TicketID := newTicket.ID }) := by
  have hio := getEventTicket_ok_ioError hget
  have hrun : t.updateTicket e w = t.createTicket e w := by
    simp [ticketUpdater.updateTicket, hget, hpf, ticketUpdater.newEvent, hstate]
  rw [hrun, createTicket_of_success t e w newTicket s hio hnew]
  exact ⟨rfl, rfl, getEventTicket_updateEventTicket w.cache e newTicket.ID hio⟩

theorem updateTicket_creates_without_entry_witness :
    (memUpdater.updateTicket (hostEvent StateCritical "down") ⟨emptyCache, [], []⟩).1 = none ∧
    (memUpdater.updateTicket (hostEvent StateCritical "down") ⟨emptyCache, [], []⟩).2.calls =
      [] ++ [rt.Call.NewTicket
        { ID := 0, Queue := "general", Owner := "",
          Subject := formatEventSubject (hostEvent StateCritical "down"), Status := "",
          Text := "Output: " ++ "down" }] ∧
    (memUpdater.updateTicket (hostEvent StateCritical "down")
        ⟨emptyCache, [], []⟩).2.cache.getEventTicket (hostEvent StateCritical "down") =
      .ok (some { Event := hostEvent StateCritical "down", TicketID := 1 }) :=
  updateTicket_creates_without_entry memUpdater (hostEvent StateCritical "down")
    ⟨emptyCache, [], []⟩
    { ID := 1, Queue := "general", Owner := "Nobody",
      Subject := formatEventSubject (hostEvent StateCritical "down"), Status := "new",
      Text := "Output: " ++ "down" }
    [{ ID := 1, Queue := "general", Owner := "Nobody",
       Subject := formatEventSubject (hostEvent StateCritical "down"), Status := "new",
       Text := "Output: " ++ "down" }]
    (by decide) (by decide) rfl rfl

/-- C2: for a permitted notification with state OK whose key has a cache entry
with ticket id X, where both lookups of X succeed, the first reporting a
status other than "deleted" and the second the nobody sentinel as owner, and
the status update succeeds: `updateTicket` returns no error, adds to the call
log the two lookups and exactly one status update that sets ticket X to
"deleted" (no create, no comment), and afterwards the cache has no entry for
the key. -/
theorem updateTicket_ok_deletes_unowned (t : ticketUpdater σ) (e : Notification) (w : world σ)
    (et : eventTicket) (first second updated : rt.Ticket) (s1 s2 s3 : σ)
    (hpf : t.pf e = true) (hstate : e.CheckResult.State = StateOK)
    (hget : w.cache.getEventTicket e = .ok (some et))
    (hfirst : t.rtClient.Ticket et.TicketID w.rtState = (.ok first, s1))
    (hstatus : first.Status ≠ "deleted")
    (hsecond : t.rtClient.Ticket et.TicketID s1 = (.ok second, s2))
    (howner : second.Owner = t.nobody)
    (hupdate : t.rtClient.UpdateTicket
        { ID := et.TicketID, Queue := "", Owner := "", Subject := "", Status := "deleted",
          Text := "" } s2 = (.ok updated, s3)) :
    (t.updateTicket e w).1 = none ∧
    (t.updateTicket e w).2.calls = w.calls ++
      [rt.Call.Ticket et.TicketID, rt.Call.Ticket et.TicketID,
       rt.Call.UpdateTicket
        { ID := et.TicketID, Queue := "", Owner := "", Subject := "", Status := "deleted",
          Text := "" }] ∧
    (t.updateTicket e w).2.cache.getEventTicket e = .ok none := by
  have hio := getEventTicket_ok_ioError hget
  have hrun : t.updateTicket e w =
      (none, { cache := (w.cache.deleteEventTicket e).2, rtState := s3,
               calls := w.calls ++
                [rt.Call.Ticket et.TicketID, rt.Call.Ticket et.TicketID,
                 rt.Call.UpdateTicket
                  { ID := et.TicketID, Queue := "", Owner := "", Subject := "",
                    Status := "deleted", Text := "" }] }) := by
    simp [ticketUpdater.updateTicket, hget, hpf, ticketUpdater.oldEvent,
      ticketUpdater.callTicket, hfirst, hstatus, hstate, ticketUpdater.deleteOrCommentTicket,
      hsecond, howner, ticketUpdater.deleteTicket, ticketUpdater.callUpdateTicket, hupdate,
      cache.deleteEventTicket, hio]
  rw [hrun]
  exact ⟨rfl, rfl, getEventTicket_deleteEventTicket w.cache e hio⟩

theorem updateTicket_ok_deletes_unowned_witness :
    (memUpdater.updateTicket (hostEvent StateOK "up")
      ⟨singleCache (hostEvent StateCritical "down") 1, [storedTicket 1 "Nobody" "new"], []⟩).1 = none ∧
    (memUpdater.updateTicket (hostEvent StateOK "up")
      ⟨singleCache (hostEvent StateCritical "down") 1, [storedTicket 1 "Nobody" "new"], []⟩).2.calls =
      [] ++ [rt.Call.Ticket 1, rt.Call.Ticket 1,
        rt.Call.UpdateTicket
          { ID := 1, Queue := "", Owner := "", Subject := "", Status := "deleted", Text := "" }] ∧
    (memUpdater.updateTicket (hostEvent StateOK "up")
      ⟨singleCache (hostEvent StateCritical "down") 1, [storedTicket 1 "Nobody" "new"],
        []⟩).2.cache.getEventTicket (hostEvent StateOK "up") = .ok none :=
  updateTicket_ok_deletes_unowned memUpdater (hostEvent StateOK "up")
    ⟨singleCache (hostEvent StateCritical "down") 1, [storedTicket 1 "Nobody" "new"], []⟩
    ⟨hostEvent StateCritical "down", 1⟩
    (storedTicket 1 "Nobody" "new") (storedTicket 1 "Nobody" "new")
    (storedTicket 1 "Nobody" "deleted")
    [storedTicket 1 "Nobody" "new"] [storedTicket 1 "Nobody" "new"]
    [storedTicket 1 "Nobody" "deleted"]
    (by decide) rfl rfl rfl (by decide) rfl rfl rfl

/-- C3: for a permitted notification with state OK whose key has a cache entry
with ticket id X, where both lookups of X succeed, the first reporting a
status other than "deleted" and the second an owner different from the nobody
sentinel, and the comment call succeeds: `updateTicket` returns no error, adds
to the call log the two lookups and exactly one comment call on ticket X with
text `formatEventComment e` (no status update, no create), and afterwards the
cache has no entry for the key. -/
theorem updateTicket_ok_comments_owned (t : ticketUpdater σ) (e : Notification) (w : world σ)
    (et : eventTicket) (first second : rt.Ticket) (s1 s2 s3 : σ)
    (hpf : t.pf e = true) (hstate : e.CheckResult.State = StateOK)
    (hget : w.cache.getEventTicket e = .ok (some et))
    (hfirst : t.rtClient.Ticket et.TicketID w.rtState = (.ok first, s1))
    (hstatus : first.Status ≠ "deleted")
    (hsecond : t.rtClient.Ticket et.TicketID s1 = (.ok second, s2))
    (howner : second.Owner ≠ t.nobody)
    (hcomment : t.rtClient.CommentTicket et.TicketID (formatEventComment e) s2 = (none, s3)) :
    (t.updateTicket e w).1 = none ∧
    (t.updateTicket e w).2.calls = w.calls ++
      [rt.Call.Ticket et.TicketID, rt.Call.Ticket et.TicketID,
       rt.Call.CommentTicket et.TicketID (formatEventComment e)] ∧
    (t.updateTicket e w).2.cache.getEventTicket e = .ok none := by
  have hio := getEventTicket_ok_ioError hget
  have hrun : t.updateTicket e w =
      (none, { cache := ((w.cache.updateEventTicket e et.TicketID).2.deleteEventTicket e).2,
               rtState := s3,
               calls := w.calls ++
                [rt.Call.Ticket et.TicketID, rt.Call.Ticket et.TicketID,
                 rt.Call.CommentTicket et.TicketID (formatEventComment e)] }) := by
    simp [ticketUpdater.updateTicket, hget, hpf, ticketUpdater.oldEvent,
      ticketUpdater.callTicket, hfirst, hstatus, hstate, ticketUpdater.deleteOrCommentTicket,
      hsecond, howner, ticketUpdater.commentTicket, ticketUpdater.callCommentTicket, hcomment,
      cache.updateEventTicket, cache.deleteEventTicket, hio]
  rw [hrun]
  refine ⟨rfl, rfl, getEventTicket_deleteEventTicket _ e ?_⟩
  simp [cache.updateEventTicket, hio]

theorem updateTicket_ok_comments_owned_witness :
    (memUpdater.updateTicket (serviceEvent StateOK "up")
      ⟨singleCache (serviceEvent StateCritical "down") 1, [storedTicket 1 "alice" "open"], []⟩).1 = none ∧
    (memUpdater.updateTicket (serviceEvent StateOK "up")
      ⟨singleCache (serviceEvent StateCritical "down") 1, [storedTicket 1 "alice" "open"], []⟩).2.calls =
      [] ++ [rt.Call.Ticket 1, rt.Call.Ticket 1,
        rt.Call.CommentTicket 1 (formatEventComment (serviceEvent StateOK "up"))] ∧
    (memUpdater.updateTicket (serviceEvent StateOK "up")
      ⟨singleCache (serviceEvent StateCritical "down") 1, [storedTicket 1 "alice" "open"],
        []⟩).2.cache.getEventTicket (serviceEvent StateOK "up") = .ok none :=
  updateTicket_ok_comments_owned memUpdater (serviceEvent StateOK "up")
    ⟨singleCache (serviceEvent StateCritical "down") 1, [storedTicket 1 "alice" "open"], []⟩
    ⟨serviceEvent StateCritical "down", 1⟩
    (storedTicket 1 "alice" "open") (storedTicket 1 "alice" "open")
    [storedTicket 1 "alice" "open"] [storedTicket 1 "alice" "open"]
    [storedTicket 1 "alice" "open"]
    (by decide) rfl rfl rfl (by decide) rfl (by decide) rfl

/-- C4: for a permitted notification whose state is not OK and whose key has a
cache entry with ticket id X, if the lookup of X fails (with any error) or
returns a ticket with status "deleted", and the create call then succeeds and
returns `newTicket`, then `updateTicket` returns no error, adds to the call
log the lookup and exactly one create call (no comment, no status update),
and afterwards the cache entry for the key is (e, newTicket.ID). -/
theorem updateTicket_recreates_missing (t : ticketUpdater σ) (e : Notification) (w : world σ)
    (et : eventTicket) (newTicket : rt.Ticket) (s : σ)
    (hpf : t.pf e = true) (_hstate : e.CheckResult.State ≠ StateOK)
    (hget : w.cache.getEventTicket e = .ok (some et))
    (hgone : (∃ err, (t.rtClient.Ticket et.TicketID w.rtState).1 = .error err) ∨
      (∃ old, (t.rtClient.Ticket et.TicketID w.rtState).1 = .ok old ∧ old.Status = "deleted"))
    (hnew : t.rtClient.NewTicket
        { ID := 0, Queue := t.queue, Owner := "", Subject := formatEventSubject e, Status := "",
          Text := "Output: " ++ e.CheckResult.Output }
        (t.rtClient.Ticket et.TicketID w.rtState).2 = (.ok newTicket, s)) :
    (t.updateTicket e w).1 = none ∧
    (t.updateTicket e w).2.calls = w.calls ++
      [rt.Call.Ticket et.TicketID,
       rt.Call.NewTicket
        { ID := 0, Queue := t.queue, Owner := "", Subject := formatEventSubject e, Status := "",
          Text := "Output: " ++ e.CheckResult.Output }] ∧
    (t.updateTicket e w).2.cache.getEventTicket e =
      .ok (some { Event := e, TicketID := newTicket.ID }) := by
  have hio := getEventTicket_ok_ioError hget
  have hrun : t.updateTicket e w = t.createTicket e (t.callTicket et.TicketID w).2 := by
    rcases hgone with ⟨err, herr⟩ | ⟨old, hold, hdel⟩
    · simp [ticketUpdater.updateTicket, hget, hpf, ticketUpdater.oldEvent,
        ticketUpdater.callTicket, herr]
    · simp [ticketUpdater.updateTicket, hget, hpf, ticketUpdater.oldEvent,
        ticketUpdater.callTicket, hold, hdel]
  rw [hrun, createTicket_of_success t e (t.callTicket et.TicketID w).2 newTicket s hio hnew]
  refine ⟨rfl, ?_, getEventTicket_updateEventTicket _ e newTicket.ID hio⟩
  simp [ticketUpdater.callTicket]

theorem updateTicket_recreates_missing_witness :
    (memUpdater.updateTicket (hostEvent StateWarning "slow")
      ⟨singleCache (hostEvent StateCritical "down") 7, [], []⟩).1 = none ∧
    (memUpdater.updateTicket (hostEvent StateWarning "slow")
      ⟨singleCache (hostEvent StateCritical "down") 7, [], []⟩).2.calls =
      [] ++ [rt.Call.Ticket 7,
        rt.Call.NewTicket
          { ID := 0, Queue := "general", Owner := "",
            Subject := formatEventSubject (hostEvent StateWarning "slow"), Status := "",
            Text := "Output: " ++ "slow" }] ∧
    (memUpdater.updateTicket (hostEvent StateWarning "slow")
      ⟨singleCache (hostEvent StateCritical "down") 7, [],
        []⟩).2.cache.getEventTicket (hostEvent StateWarning "slow") =
      .ok (some { Event := hostEvent StateWarning "slow", TicketID := 1 }) :=
  updateTicket_recreates_missing memUpdater (hostEvent StateWarning "slow")
    ⟨singleCache (hostEvent StateCritical "down") 7, [], []⟩
    ⟨hostEvent StateCritical "down", 7⟩
    { ID := 1, Queue := "general", Owner := "Nobody",
      Subject := formatEventSubject (hostEvent StateWarning "slow"), Status := "new",
      Text := "Output: " ++ "slow" }
    [{ ID := 1, Queue := "general", Owner := "Nobody",
       Subject := formatEventSubject (hostEvent StateWarning "slow"), Status := "new",
       Text := "Output: " ++ "slow" }]
    (by decide) (by decide) rfl (Or.inl ⟨"ticket not found", rfl⟩) rfl

/-- C5: for a permitted notification whose state is not OK and whose key has a
cache entry (oldEvent, X), where the lookup of X succeeds with a status other
than "deleted" and the state of the notification differs from the state of
oldEvent, if the comment call succeeds then `updateTicket` returns no error,
adds to the call log the lookup and exactly one comment call on ticket X with
text `formatEventComment e` (no create, no status update), and afterwards the
cache entry for the key is (e, X), the ticket id unchanged. -/
theorem updateTicket_comments_state_change (t : ticketUpdater σ) (e : Notification) (w : world σ)
    (et : eventTicket) (old : rt.Ticket) (s1 s2 : σ)
    (hpf : t.pf e = true) (hstate : e.CheckResult.State ≠ StateOK)
    (hget : w.cache.getEventTicket e = .ok (some et))
    (hold : t.rtClient.Ticket et.TicketID w.rtState = (.ok old, s1))
    (hstatus : old.Status ≠ "deleted")
    (hchange : e.CheckResult.State ≠ et.Event.CheckResult.State)
    (hcomment : t.rtClient.CommentTicket et.TicketID (formatEventComment e) s1 = (none, s2)) :
    (t.updateTicket e w).1 = none ∧
    (t.updateTicket e w).2.calls = w.calls ++
      [rt.Call.Ticket et.TicketID, rt.Call.CommentTicket et.TicketID (formatEventComment e)] ∧
    (t.updateTicket e w).2.cache.getEventTicket e =
      .ok (some { Event := e, TicketID := et.TicketID }) := by
  have hio := getEventTicket_ok_ioError hget
  have hrun : t.updateTicket e w =
      t.commentTicket e et.Event et.TicketID (t.callTicket et.TicketID w).2 := by
    simp [ticketUpdater.updateTicket, hget, hpf, ticketUpdater.oldEvent,
      ticketUpdater.callTicket, hold, hstatus, hstate, hchange]
  have hcomment2 : t.rtClient.CommentTicket et.TicketID (formatEventComment e)
      (t.callTicket et.TicketID w).2.rtState = (none, s2) := by
    simpa [ticketUpdater.callTicket, hold] using hcomment
  rw [hrun, commentTicket_of_success t e et.Event et.TicketID (t.callTicket et.TicketID w).2 s2
    hio hcomment2]
  refine ⟨rfl, ?_, getEventTicket_updateEventTicket _ e et.TicketID hio⟩
  simp [ticketUpdater.callTicket]

theorem updateTicket_comments_state_change_witness :
    (memUpdater.updateTicket (hostEvent StateWarning "slow")
      ⟨singleCache (hostEvent StateCritical "down") 1, [storedTicket 1 "alice" "open"], []⟩).1 = none ∧
    (memUpdater.updateTicket (hostEvent StateWarning "slow")
      ⟨singleCache (hostEvent StateCritical "down") 1, [storedTicket 1 "alice" "open"], []⟩).2.calls =
      [] ++ [rt.Call.Ticket 1,
        rt.Call.CommentTicket 1 (formatEventComment (hostEvent StateWarning "slow"))] ∧
    (memUpdater.updateTicket (hostEvent StateWarning "slow")
      ⟨singleCache (hostEvent StateCritical "down") 1, [storedTicket 1 "alice" "open"],
        []⟩).2.cache.getEventTicket (hostEvent StateWarning "slow") =
      .ok (some { Event := hostEvent StateWarning "slow", TicketID := 1 }) :=
  updateTicket_comments_state_change memUpdater (hostEvent StateWarning "slow")
    ⟨singleCache (hostEvent StateCritical "down") 1, [storedTicket 1 "alice" "open"], []⟩
    ⟨hostEvent StateCritical "down", 1⟩ (storedTicket 1 "alice" "open")
    [storedTicket 1 "alice" "open"] [storedTicket 1 "alice" "open"]
    (by decide) (by decide) rfl rfl (by decide) (by decide) rfl

/-- C6: for a permitted notification whose state is not OK and whose key has a
cache entry (oldEvent, X), where the lookup of X succeeds with a status other
than "deleted" and the state of the notification equals the state of oldEvent,
`updateTicket` returns no error, adds only the lookup to the call log (no
create, comment or status-update call), and leaves the whole cache unchanged,
so the entry still holds oldEvent. -/
theorem updateTicket_same_state_noop (t : ticketUpdater σ) (e : Notification) (w : world σ)
    (et : eventTicket) (old : rt.Ticket) (s1 : σ)
    (hpf : t.pf e = true) (hstate : e.CheckResult.State ≠ StateOK)
    (hget : w.cache.getEventTicket e = .ok (some et))
    (hold : t.rtClient.Ticket et.TicketID w.rtState = (.ok old, s1))
    (hstatus : old.Status ≠ "deleted")
    (hsame : e.CheckResult.State = et.Event.CheckResult.State) :
    (t.updateTicket e w).1 = none ∧
    (t.updateTicket e w).2.calls = w.calls ++ [rt.Call.Ticket et.TicketID] ∧
    (t.updateTicket e w).2.cache = w.cache ∧
    (t.updateTicket e w).2.cache.getEventTicket e = .ok (some et) := by
  have hstate2 : ¬ et.Event.CheckResult.State = StateOK := fun h => hstate (hsame.trans h)
  have hrun : t.updateTicket e w =
      (none, { w with rtState := s1, calls := w.calls ++ [rt.Call.Ticket et.TicketID] }) := by
    simp [ticketUpdater.updateTicket, hget, hpf, ticketUpdater.oldEvent,
      ticketUpdater.callTicket, hold, hstatus, hsame, hstate2]
  rw [hrun]
  exact ⟨rfl, rfl, rfl, hget⟩

theorem updateTicket_same_state_noop_witness :
    (memUpdater.updateTicket (hostEvent StateCritical "still down")
      ⟨singleCache (hostEvent StateCritical "down") 1, [storedTicket 1 "Nobody" "new"], []⟩).1 = none ∧
    (memUpdater.updateTicket (hostEvent StateCritical "still down")
      ⟨singleCache (hostEvent StateCritical "down") 1, [storedTicket 1 "Nobody" "new"], []⟩).2.calls =
      [] ++ [rt.Call.Ticket 1] ∧
    (memUpdater.updateTicket (hostEvent StateCritical "still down")
      ⟨singleCache (hostEvent StateCritical "down") 1, [storedTicket 1 "Nobody" "new"], []⟩).2.cache =
      singleCache (hostEvent StateCritical "down") 1 ∧
    (memUpdater.updateTicket (hostEvent StateCritical "still down")
      ⟨singleCache (hostEvent StateCritical "down") 1, [storedTicket 1 "Nobody" "new"],
        []⟩).2.cache.getEventTicket (hostEvent StateCritical "still down") =
      .ok (some ⟨hostEvent StateCritical "down", 1⟩) :=
  updateTicket_same_state_noop memUpdater (hostEvent StateCritical "still down")
    ⟨singleCache (hostEvent StateCritical "down") 1, [storedTicket 1 "Nobody" "new"], []⟩
    ⟨hostEvent StateCritical "down", 1⟩ (storedTicket 1 "Nobody" "new")
    [storedTicket 1 "Nobody" "new"]
    (by decide) (by decide) rfl rfl (by decide) rfl

theorem commentCalls_append (xs ys : List rt.Call) :
    commentCalls (xs ++ ys) = commentCalls xs + commentCalls ys := by
  simp [commentCalls]

theorem getEventTicket_same_key (c : cache) (e1 e2 : Notification)
    (hhost : e1.Host = e2.Host) (hservice : e1.Service = e2.Service) :
    c.getEventTicket e1 = c.getEventTicket e2 := by
  simp [cache.getEventTicket, hhost, hservice]

theorem createTicket_commentCalls (t : ticketUpdater σ) (e : Notification) (w : world σ) :
    commentCalls (t.createTicket e w).2.calls = commentCalls w.calls := by
  unfold ticketUpdater.createTicket
  simp only [ticketUpdater.callNewTicket]
  cases hnew : (t.rtClient.NewTicket
        { ID := 0, Queue := t.queue, Owner := "", Subject := formatEventSubject e, Status := "",
          Text := "Output: " ++ e.CheckResult.Output } w.rtState).1 with
  | error err => simp [commentCalls]
  | ok newTicket =>
    cases hio : w.cache.ioError <;> simp [cache.updateEventTicket, hio, commentCalls]

theorem createTicket_entry (t : ticketUpdater σ) (e : Notification) (w : world σ)
    (hnone : (t.createTicket e w).1 = none) :
    ∃ et, (t.createTicket e w).2.cache.getEventTicket e = .ok (some et) ∧ et.Event = e := by
  unfold ticketUpdater.createTicket at hnone ⊢
  simp only [ticketUpdater.callNewTicket] at hnone ⊢
  cases hnew : (t.rtClient.NewTicket
        { ID := 0, Queue := t.queue, Owner := "", Subject := formatEventSubject e, Status := "",
          Text := "Output: " ++ e.CheckResult.Output } w.rtState).1 with
  | error err => simp [hnew] at hnone
  | ok newTicket =>
    cases hio : w.cache.ioError with
    | some err => simp [hnew, cache.updateEventTicket, hio] at hnone
    | none => simp [cache.updateEventTicket, hio, cache.getEventTicket]

theorem commentTicket_commentCalls (t : ticketUpdater σ) (newEvent oldEvent : Notification)
    (ticketID : Int) (w : world σ) :
    commentCalls (t.commentTicket newEvent oldEvent ticketID w).2.calls =
      commentCalls w.calls + 1 := by
  unfold ticketUpdater.commentTicket
  simp only [ticketUpdater.callCommentTicket]
  cases hcomment : (t.rtClient.CommentTicket ticketID (formatEventComment newEvent) w.rtState).1 with
  | some err => simp [commentCalls]
  | none =>
    cases hio : w.cache.ioError <;> simp [cache.updateEventTicket, hio, commentCalls]

theorem commentTicket_entry (t : ticketUpdater σ) (newEvent oldEvent : Notification)
    (ticketID : Int) (w : world σ)
    (hnone : (t.commentTicket newEvent oldEvent ticketID w).1 = none) :
    ∃ et, (t.commentTicket newEvent oldEvent ticketID w).2.cache.getEventTicket newEvent =
      .ok (some et) ∧ et.Event = newEvent := by
  unfold ticketUpdater.commentTicket at hnone ⊢
  simp only [ticketUpdater.callCommentTicket] at hnone ⊢
  cases hcomment : (t.rtClient.CommentTicket ticketID (formatEventComment newEvent) w.rtState).1 with
  | some err => simp [hcomment] at hnone
  | none =>
    cases hio : w.cache.ioError with
    | some err => simp [hcomment, cache.updateEventTicket, hio] at hnone
    | none => simp [cache.updateEventTicket, hio, cache.getEventTicket]

theorem callTicket_commentCalls (t : ticketUpdater σ) (ticketID : Int) (w : world σ) :
    commentCalls (t.callTicket ticketID w).2.calls = commentCalls w.calls := by
  simp [ticketUpdater.callTicket, commentCalls]

theorem callTicket_cache (t : ticketUpdater σ) (ticketID : Int) (w : world σ) :
    (t.callTicket ticketID w).2.cache = w.cache := rfl

theorem oldEvent_of_lookup (t : ticketUpdater σ) (newEvent oldEvent : Notification)
    (ticketID : Int) (w : world σ) (hstate : newEvent.CheckResult.State ≠ StateOK) :
    t.oldEvent newEvent oldEvent ticketID w =
        t.createTicket newEvent (t.callTicket ticketID w).2 ∨
      (newEvent.CheckResult.State ≠ oldEvent.CheckResult.State ∧
        t.oldEvent newEvent oldEvent ticketID w =
          t.commentTicket newEvent oldEvent ticketID (t.callTicket ticketID w).2) ∨
      (newEvent.CheckResult.State = oldEvent.CheckResult.State ∧
        t.oldEvent newEvent oldEvent ticketID w = (none, (t.callTicket ticketID w).2)) := by
  unfold ticketUpdater.oldEvent
  cases hlook : (t.callTicket ticketID w).1 with
  | error err =>
    left
    rw [← Prod.mk.eta (p := t.callTicket ticketID w), hlook]
  | ok old =>
    rw [← Prod.mk.eta (p := t.callTicket ticketID w), hlook]
    by_cases hdel : old.Status = "deleted"
    · left; simp [hdel]
    · by_cases hsame : newEvent.CheckResult.State = oldEvent.CheckResult.State
      · right; right
        refine ⟨hsame, ?_⟩
        have hstate2 : ¬ oldEvent.CheckResult.State = StateOK := fun h => hstate (hsame.trans h)
        simp [hdel, hsame, hstate2]
      · right; left
        refine ⟨hsame, ?_⟩
        simp [hdel, hsame, hstate]

theorem updateTicket_entry_after (t : ticketUpdater σ) (e : Notification) (w : world σ)
    (hpf : t.pf e = true) (hstate : e.CheckResult.State ≠ StateOK)
    (hnone : (t.updateTicket e w).1 = none) :
    (∃ et, (t.updateTicket e w).2.cache.getEventTicket e = .ok (some et) ∧
      et.Event.CheckResult.State = e.CheckResult.State) ∧
    commentCalls (t.updateTicket e w).2.calls ≤ commentCalls w.calls + 1 := by
  unfold ticketUpdater.updateTicket at hnone ⊢
  cases hget : w.cache.getEventTicket e with
  | error err => simp [hget] at hnone
  | ok found =>
    cases found with
    | none =>
      simp only [hget, hpf, ticketUpdater.newEvent, hstate, not_true_eq_false, if_false] at hnone ⊢
      obtain ⟨et, h1, h2⟩ := createTicket_entry t e w hnone
      exact ⟨⟨et, h1, by rw [h2]⟩, by rw [createTicket_commentCalls]; omega⟩
    | some old =>
      simp only [hget, hpf, not_true_eq_false, if_false] at hnone ⊢
      rcases oldEvent_of_lookup t e old.Event old.TicketID w hstate with h | ⟨_, h⟩ | ⟨hsame, h⟩
      · rw [h] at hnone ⊢
        obtain ⟨et, h1, h2⟩ := createTicket_entry t e _ hnone
        refine ⟨⟨et, h1, by rw [h2]⟩, ?_⟩
        rw [createTicket_commentCalls, callTicket_commentCalls]; omega
      · rw [h] at hnone ⊢
        obtain ⟨et, h1, h2⟩ := commentTicket_entry t e old.Event old.TicketID _ hnone
        refine ⟨⟨et, h1, by rw [h2]⟩, ?_⟩
        rw [commentTicket_commentCalls, callTicket_commentCalls]
      · rw [h]
        refine ⟨⟨old, ?_, hsame.symm⟩, ?_⟩
        · simpa [callTicket_cache] using hget
        · simp only [callTicket_commentCalls]; omega

theorem updateTicket_same_state_commentCalls (t : ticketUpdater σ) (e : Notification)
    (w : world σ) (et : eventTicket) (hstate : e.CheckResult.State ≠ StateOK)
    (hget : w.cache.getEventTicket e = .ok (some et))
    (hsame : et.Event.CheckResult.State = e.CheckResult.State) :
    commentCalls (t.updateTicket e w).2.calls = commentCalls w.calls := by
  unfold ticketUpdater.updateTicket
  by_cases hpf : t.pf e = true
  · simp only [hget, hpf, not_true_eq_false, if_false]
    rcases oldEvent_of_lookup t e et.Event et.TicketID w hstate with h | ⟨hne, _⟩ | ⟨_, h⟩
    · rw [h, createTicket_commentCalls, callTicket_commentCalls]
    · exact absurd hsame.symm hne
    · rw [h, callTicket_commentCalls]
  · simp [hget, hpf]

/-- C7, as stated, fails: starting from the empty cache, two consecutive
Critical notifications for the key ("h1", "") both return no error, the first
creates ticket 1 and the second only looks it up, so no `CommentTicket` call is
issued at all, not one. -/
theorem two_notifications_comment_count_counterexample :
    memUpdater.pf (hostEvent StateCritical "down") = true ∧
    (hostEvent StateCritical "down").CheckResult.State ≠ StateOK ∧
    (memUpdater.updateTicket (hostEvent StateCritical "down") ⟨emptyCache, [], []⟩).1 = none ∧
    (memUpdater.updateTicket (hostEvent StateCritical "down")
      (memUpdater.updateTicket (hostEvent StateCritical "down") ⟨emptyCache, [], []⟩).2).1 = none ∧
    (memUpdater.updateTicket (hostEvent StateCritical "down")
      (memUpdater.updateTicket (hostEvent StateCritical "down") ⟨emptyCache, [], []⟩).2).2.calls =
      [rt.Call.NewTicket
        { ID := 0, Queue := "general", Owner := "",
          Subject := formatEventSubject (hostEvent StateCritical "down"), Status := "",
          Text := "Output: down" },
       rt.Call.Ticket 1] ∧
    commentCalls (memUpdater.updateTicket (hostEvent StateCritical "down")
      (memUpdater.updateTicket (hostEvent StateCritical "down")
        ⟨emptyCache, [], []⟩).2).2.calls ≠ commentCalls [] + 1 := by
  refine ⟨by decide, by decide, by decide, by decide, by decide, by decide⟩

/-- C7, amended: for two consecutive notifications with the same state, not
OK, for the same key, the first permitted and returning no error, the second
notification adds no `CommentTicket` call, so the two together add at most one
`CommentTicket` call, never two (they add none when the first creates the
ticket or is itself a repetition). -/
theorem two_notifications_at_most_one_comment (t : ticketUpdater σ) (e1 e2 : Notification)
    (w : world σ)
    (hhost : e1.Host = e2.Host) (hservice : e1.Service = e2.Service)
    (hsame : e1.CheckResult.State = e2.CheckResult.State)
    (hstate : e1.CheckResult.State ≠ StateOK)
    (hpf : t.pf e1 = true)
    (hfirst : (t.updateTicket e1 w).1 = none) :
    commentCalls (t.updateTicket e2 (t.updateTicket e1 w).2).2.calls =
      commentCalls (t.updateTicket e1 w).2.calls ∧
    commentCalls (t.updateTicket e2 (t.updateTicket e1 w).2).2.calls ≤
      commentCalls w.calls + 1 := by
  obtain ⟨⟨et, hget, het⟩, hle⟩ := updateTicket_entry_after t e1 w hpf hstate hfirst
  rw [getEventTicket_same_key _ e1 e2 hhost hservice] at hget
  have hsecond := updateTicket_same_state_commentCalls t e2 (t.updateTicket e1 w).2 et
    (fun h => hstate (hsame.trans h)) hget (het.trans hsame)
  exact ⟨hsecond, by rw [hsecond]; exact hle⟩

theorem two_notifications_at_most_one_comment_witness :
    (memUpdater.updateTicket (hostEvent StateWarning "slow")
      ⟨singleCache (hostEvent StateCritical "down") 1, [storedTicket 1 "alice" "open"], []⟩).1 = none ∧
    commentCalls (memUpdater.updateTicket (hostEvent StateWarning "slow")
      ⟨singleCache (hostEvent StateCritical "down") 1, [storedTicket 1 "alice" "open"], []⟩).2.calls = 1 ∧
    commentCalls (memUpdater.updateTicket (hostEvent StateWarning "still slow")
      (memUpdater.updateTicket (hostEvent StateWarning "slow")
        ⟨singleCache (hostEvent StateCritical "down") 1, [storedTicket 1 "alice" "open"],
          []⟩).2).2.calls =
      commentCalls (memUpdater.updateTicket (hostEvent StateWarning "slow")
        ⟨singleCache (hostEvent StateCritical "down") 1, [storedTicket 1 "alice" "open"],
          []⟩).2.calls ∧
    commentCalls (memUpdater.updateTicket (hostEvent StateWarning "still slow")
      (memUpdater.updateTicket (hostEvent StateWarning "slow")
        ⟨singleCache (hostEvent StateCritical "down") 1, [storedTicket 1 "alice" "open"],
          []⟩).2).2.calls ≤ commentCalls [] + 1 :=
  ⟨by decide, by decide,
    two_notifications_at_most_one_comment memUpdater (hostEvent StateWarning "slow")
      (hostEvent StateWarning "still slow")
      ⟨singleCache (hostEvent StateCritical "down") 1, [storedTicket 1 "alice" "open"], []⟩
      rfl rfl rfl (by decide) (by decide) (by decide)⟩

/-! The stream consumer and the configuration -/

theorem backoffDuration_small (k : Nat) (hk : k < 34) :
    backoffDuration k = 2 ^ k * timeSecond := by
  interval_cases k <;> decide

theorem openEventStreamerLoop_result (icingaClient : icinga2.Client ι ρ τ) (queue filter : String)
    (streamtype : List τ) (remaining exp : Nat) (err : Option String) (w : streamWorld ι) :
    (∃ r, (openEventStreamerLoop icingaClient queue filter streamtype remaining exp err w).1 =
        (some r, none)) ∨
      (remaining = 0 ∧
        (openEventStreamerLoop icingaClient queue filter streamtype remaining exp err w).1 =
          (none, err)) ∨
      (0 < remaining ∧ ∃ last,
        (openEventStreamerLoop icingaClient queue filter streamtype remaining exp err w).1 =
          (none, some last)) := by
  induction remaining generalizing exp err w with
  | zero => right; left; exact ⟨rfl, rfl⟩
  | succ n ih =>
    unfold openEventStreamerLoop
    rcases hcall : icingaClient.EventStream queue filter streamtype w.icingaState with ⟨res, s⟩
    cases res with
    | ok r => left; exact ⟨r, rfl⟩
    | error e =>
      simp only []
      rcases ih ((exp + 1) % 2 ^ 64) (some e)
          { icingaState := s, attempts := w.attempts + 1,
            sleeps := w.sleeps ++ [backoffDuration exp] } with h | ⟨_, h⟩ | ⟨_, h⟩
      · left; exact h
      · right; right; exact ⟨Nat.succ_pos n, e, h⟩
      · right; right; exact ⟨Nat.succ_pos n, h⟩

theorem openEventStreamerLoop_small (icingaClient : icinga2.Client ι ρ τ) (queue filter : String)
    (streamtype : List τ) (remaining exp : Nat) (err : Option String) (w : streamWorld ι)
    (hsmall : exp + remaining ≤ 34) :
    ∃ failed, failed ≤ remaining ∧
      (openEventStreamerLoop icingaClient queue filter streamtype remaining exp err w).2.sleeps =
        w.sleeps ++ (List.range failed).map (fun k => 2 ^ (exp + k) * timeSecond) ∧
      ((∃ r, (openEventStreamerLoop icingaClient queue filter streamtype remaining exp err w).1 =
            (some r, none) ∧
          (openEventStreamerLoop icingaClient queue filter streamtype remaining exp err w).2.attempts =
            w.attempts + failed + 1) ∨
        (failed = remaining ∧
          (openEventStreamerLoop icingaClient queue filter streamtype remaining exp err w).2.attempts =
            w.attempts + remaining)) := by
  induction remaining generalizing exp err w with
  | zero => exact ⟨0, le_refl 0, by simp [openEventStreamerLoop], Or.inr ⟨rfl, rfl⟩⟩
  | succ n ih =>
    unfold openEventStreamerLoop
    rcases hcall : icingaClient.EventStream queue filter streamtype w.icingaState with ⟨res, s⟩
    cases res with
    | ok r => exact ⟨0, Nat.zero_le _, by simp, Or.inl ⟨r, rfl, rfl⟩⟩
    | error e =>
      simp only []
      have hexp : (exp + 1) % 2 ^ 64 = exp + 1 := Nat.mod_eq_of_lt (by omega)
      rw [hexp]
      obtain ⟨failed, hle, hsleeps, hres⟩ := ih (exp + 1) (some e)
        { icingaState := s, attempts := w.attempts + 1,
          sleeps := w.sleeps ++ [backoffDuration exp] } (by omega)
      refine ⟨failed + 1, by omega, ?_, ?_⟩
      · rw [hsleeps, backoffDuration_small exp (by omega), List.range_succ_eq_map]
        simp [Function.comp_def, Nat.add_assoc, Nat.add_comm 1]
      · rcases hres with ⟨r, h1, h2⟩ | ⟨h1, h2⟩
        · exact Or.inl ⟨r, h1, by rw [h2]; simp only []; omega⟩
        · exact Or.inr ⟨by omega, by rw [h2]; simp only []; omega⟩

/-- C14: with a retry limit of 35 and a monitoring side that refuses every
connection, `openEventStreamer` makes 35 attempts and returns no stream with
the last error; the wait after the failed attempt 33 is 2^33 seconds, but the
wait after the failed attempt 34 is the wrapped `int64` value
-1266874889709551616 ns (a negative duration, on which `time.Sleep` returns at
once), not 2^34 seconds. -/
theorem openEventStreamer_backoff_overflow :
    (openEventStreamer 35 downIcinga icingaQueueName "" [] ⟨(), 0, []⟩).1 =
      (none, some "connection refused") ∧
    (openEventStreamer 35 downIcinga icingaQueueName "" [] ⟨(), 0, []⟩).2.attempts = 35 ∧
    (openEventStreamer 35 downIcinga icingaQueueName "" [] ⟨(), 0, []⟩).2.sleeps.get? 33 =
      some (2 ^ 33 * timeSecond) ∧
    (openEventStreamer 35 downIcinga icingaQueueName "" [] ⟨(), 0, []⟩).2.sleeps.get? 34 =
      some (-1266874889709551616) ∧
    (openEventStreamer 35 downIcinga icingaQueueName "" [] ⟨(), 0, []⟩).2.sleeps.get? 34 ≠
      some (2 ^ 34 * timeSecond) := by
  refine ⟨by decide, by decide, by decide, by decide, by decide⟩

/-- C15, as stated, fails: with a retry limit of 0, and likewise of -1,
`openEventStreamer` makes no attempt and returns no stream together with no
error. -/
theorem openEventStreamer_nonpositive_counterexample :
    (openEventStreamer 0 downIcinga icingaQueueName "" [] ⟨(), 0, []⟩).1 = (none, none) ∧
    (openEventStreamer 0 downIcinga icingaQueueName "" [] ⟨(), 0, []⟩).2.attempts = 0 ∧
    (openEventStreamer (-1) downIcinga icingaQueueName "" [] ⟨(), 0, []⟩).1 = (none, none) ∧
    (openEventStreamer (-1) downIcinga icingaQueueName "" [] ⟨(), 0, []⟩).2.attempts = 0 := by
  refine ⟨by decide, by decide, by decide, by decide⟩

/-- C15, amended: for every retry limit greater than 0 and every behaviour of
the monitoring client, `openEventStreamer` returns either a stream with no
error or no stream with a non-nil error. -/
theorem openEventStreamer_stream_or_error (retries : Int) (icingaClient : icinga2.Client ι ρ τ)
    (queue filter : String) (streamtype : List τ) (w : streamWorld ι) (hretries : 0 < retries) :
    (∃ r, (openEventStreamer retries icingaClient queue filter streamtype w).1 = (some r, none)) ∨
    (∃ err, (openEventStreamer retries icingaClient queue filter streamtype w).1 =
      (none, some err)) := by
  unfold openEventStreamer
  rcases openEventStreamerLoop_result icingaClient queue filter streamtype retries.toNat 0 none w
    with h | ⟨h0, _⟩ | ⟨_, h⟩
  · left; exact h
  · omega
  · right; exact h

theorem openEventStreamer_stream_or_error_witness :
    (∃ r, (openEventStreamer 5 flakyIcinga icingaQueueName "" [] ⟨2, 0, []⟩).1 = (some r, none)) ∨
    (∃ err, (openEventStreamer 5 flakyIcinga icingaQueueName "" [] ⟨2, 0, []⟩).1 =
      (none, some err)) :=
  openEventStreamer_stream_or_error 5 flakyIcinga icingaQueueName "" [] ⟨2, 0, []⟩ (by decide)

theorem checkConfig_retries_ne_zero (conf : config) (h : checkConfig conf = none) :
    conf.Icinga.Retries ≠ 0 := by
  intro h0
  unfold checkConfig at h
  simp [h0] at h
  split_ifs at h

/-- C16: the default configuration with `Icinga.Retries` set to -1, which is
not greater than 0, is accepted by `checkConfig` (it returns no error): the
check is `Retries == 0`, while its message says "Icinga.Retries must be > 0.". -/
theorem checkConfig_accepts_negative_retries :
    checkConfig { defaultConfig with Icinga := { defaultConfig.Icinga with Retries := -1 } } =
      none ∧
    ¬ (0 < ({ defaultConfig with
        Icinga := { defaultConfig.Icinga with Retries := -1 } } : config).Icinga.Retries) ∧
    checkConfig { defaultConfig with Icinga := { defaultConfig.Icinga with Retries := 0 } } =
      some "Icinga.Retries must be > 0." := by
  refine ⟨by decide, by decide, by decide⟩

/-- C17: for a notification with a non-empty host and an empty service
`formatEventSubject` is "Host: <host> is <state name>", without a service
segment; for every other notification (non-empty service, or empty host) it is
"Host: <host> Service: <service> is <state name>". -/
theorem formatEventSubject_host_only_or_service (e : Notification) :
    formatEventSubject e =
      if e.Host ≠ "" ∧ e.Service = "" then
        "Host: " ++ e.Host ++ " is " ++ e.CheckResult.State.String
      else
        "Host: " ++ e.Host ++ " Service: " ++ e.Service ++ " is " ++ e.CheckResult.State.String := by
  unfold formatEventSubject
  by_cases hhost : e.Host = "" <;> by_cases hservice : e.Service = "" <;> simp [hhost, hservice]

/-- C18: `formatEventComment` is "New status: <state name> Output: <output>"
when the check-result output is non-empty, and the bare state name when it is
empty; in both cases the comment ends with the output. -/
theorem formatEventComment_output_or_state (e : Notification) :
    (formatEventComment e =
      if e.CheckResult.Output ≠ "" then
        "New status: " ++ e.CheckResult.State.String ++ " Output: " ++ e.CheckResult.Output
      else
        e.CheckResult.State.String) ∧
    ∃ before, formatEventComment e = before ++ e.CheckResult.Output := by
  unfold formatEventComment
  by_cases hout : e.CheckResult.Output = ""
  · exact ⟨by simp [hout], e.CheckResult.State.String, by simp [hout]⟩
  · exact ⟨by simp [hout],
      "New status: " ++ e.CheckResult.State.String ++ " Output: ", by simp [hout]⟩

/-! Whole runs of `updateTicket` -/

theorem updateTicket_run_create (t : ticketUpdater σ) (e : Notification) (w : world σ)
    (et : eventTicket) (newTicket : rt.Ticket) (s : σ)
    (hpf : t.pf e = true)
    (hget : w.cache.getEventTicket e = .ok (some et))
    (hgone : (∃ err, (t.rtClient.Ticket et.TicketID w.rtState).1 = .error err) ∨
      (∃ old, (t.rtClient.Ticket et.TicketID w.rtState).1 = .ok old ∧ old.Status = "deleted"))
    (hnew : t.rtClient.NewTicket
        { ID := 0, Queue := t.queue, Owner := "", Subject := formatEventSubject e, Status := "",
          Text := "Output: " ++ e.CheckResult.Output }
        (t.rtClient.Ticket et.TicketID w.rtState).2 = (.ok newTicket, s)) :
    t.updateTicket e w =
      (none, { cache := (w.cache.updateEventTicket e newTicket.ID).2, rtState := s,
               calls := w.calls ++
                [rt.Call.Ticket et.TicketID,
                 rt.Call.NewTicket
                  { ID := 0, Queue := t.queue, Owner := "", Subject := formatEventSubject e,
                    Status := "", Text := "Output: " ++ e.CheckResult.Output }] }) := by
  have hio := getEventTicket_ok_ioError hget
  have hrun : t.updateTicket e w = t.createTicket e (t.callTicket et.TicketID w).2 := by
    rcases hgone with ⟨err, herr⟩ | ⟨old, hold, hdel⟩
    · simp [ticketUpdater.updateTicket, hget, hpf, ticketUpdater.oldEvent,
        ticketUpdater.callTicket, herr]
    · simp [ticketUpdater.updateTicket, hget, hpf, ticketUpdater.oldEvent,
        ticketUpdater.callTicket, hold, hdel]
  rw [hrun, createTicket_of_success t e (t.callTicket et.TicketID w).2 newTicket s hio hnew]
  simp [ticketUpdater.callTicket]

theorem formatEventSubject_ends (e : Notification) :
    ∃ before, formatEventSubject e = before ++ ("is " ++ e.CheckResult.State.String) := by
  have hsplit : " is " = " " ++ "is " := by decide
  unfold formatEventSubject
  split_ifs
  · exact ⟨"Host: " ++ e.Host ++ " Service: " ++ e.Service ++ " ", by
      rw [hsplit]; simp only [String.append_assoc]⟩
  · exact ⟨"Host: " ++ e.Host ++ " ", by rw [hsplit]; simp only [String.append_assoc]⟩
  · exact ⟨"Host: " ++ e.Host ++ " Service: " ++ e.Service ++ " ", by
      rw [hsplit]; simp only [String.append_assoc]⟩

/-- C19: for a permitted notification with state OK whose key has a cache
entry with ticket id X, if the lookup of X fails or returns status "deleted"
and the create call succeeds and returns `newTicket`, `updateTicket` returns
no error and still creates a ticket: the call log grows by the lookup and one
create call whose subject ends in "is OK", and afterwards the cache holds the
entry (e, newTicket.ID) for the key, whose recorded state is OK. -/
theorem updateTicket_ok_recreates_missing (t : ticketUpdater σ) (e : Notification) (w : world σ)
    (et : eventTicket) (newTicket : rt.Ticket) (s : σ)
    (hpf : t.pf e = true) (hstate : e.CheckResult.State = StateOK)
    (hget : w.cache.getEventTicket e = .ok (some et))
    (hgone : (∃ err, (t.rtClient.Ticket et.TicketID w.rtState).1 = .error err) ∨
      (∃ old, (t.rtClient.Ticket et.TicketID w.rtState).1 = .ok old ∧ old.Status = "deleted"))
    (hnew : t.rtClient.NewTicket
        { ID := 0, Queue := t.queue, Owner := "", Subject := formatEventSubject e, Status := "",
          Text := "Output: " ++ e.CheckResult.Output }
        (t.rtClient.Ticket et.TicketID w.rtState).2 = (.ok newTicket, s)) :
    (t.updateTicket e w).1 = none ∧
    (t.updateTicket e w).2.calls = w.calls ++
      [rt.Call.Ticket et.TicketID,
       rt.Call.NewTicket
        { ID := 0, Queue := t.queue, Owner := "", Subject := formatEventSubject e, Status := "",
          Text := "Output: " ++ e.CheckResult.Output }] ∧
    (∃ before, formatEventSubject e = before ++ "is OK") ∧
    (t.updateTicket e w).2.cache.getEventTicket e =
      .ok (some { Event := e, TicketID := newTicket.ID }) ∧
    (∃ entry, (t.updateTicket e w).2.cache.getEventTicket e = .ok (some entry) ∧
      entry.Event.CheckResult.State = StateOK) := by
  have hio := getEventTicket_ok_ioError hget
  rw [updateTicket_run_create t e w et newTicket s hpf hget hgone hnew]
  have hentry := getEventTicket_updateEventTicket w.cache e newTicket.ID hio
  refine ⟨rfl, rfl, ?_, hentry, ⟨_, hentry, hstate⟩⟩
  obtain ⟨before, hbefore⟩ := formatEventSubject_ends e
  exact ⟨before, by rw [hbefore, hstate]; rfl⟩

theorem updateTicket_ok_recreates_missing_witness :
    (memUpdater.updateTicket (hostEvent StateOK "up")
      ⟨singleCache (hostEvent StateCritical "down") 1, [storedTicket 1 "Nobody" "deleted"],
        []⟩).1 = none ∧
    (memUpdater.updateTicket (hostEvent StateOK "up")
      ⟨singleCache (hostEvent StateCritical "down") 1, [storedTicket 1 "Nobody" "deleted"],
        []⟩).2.calls =
      [] ++ [rt.Call.Ticket 1,
        rt.Call.NewTicket
          { ID := 0, Queue := "general", Owner := "",
            Subject := formatEventSubject (hostEvent StateOK "up"), Status := "",
            Text := "Output: " ++ "up" }] ∧
    (∃ before, formatEventSubject (hostEvent StateOK "up") = before ++ "is OK") ∧
    (memUpdater.updateTicket (hostEvent StateOK "up")
      ⟨singleCache (hostEvent StateCritical "down") 1, [storedTicket 1 "Nobody" "deleted"],
        []⟩).2.cache.getEventTicket (hostEvent StateOK "up") =
      .ok (some { Event := hostEvent StateOK "up", TicketID := 2 }) ∧
    (∃ entry, (memUpdater.updateTicket (hostEvent StateOK "up")
      ⟨singleCache (hostEvent StateCritical "down") 1, [storedTicket 1 "Nobody" "deleted"],
        []⟩).2.cache.getEventTicket (hostEvent StateOK "up") = .ok (some entry) ∧
      entry.Event.CheckResult.State = StateOK) :=
  updateTicket_ok_recreates_missing memUpdater (hostEvent StateOK "up")
    ⟨singleCache (hostEvent StateCritical "down") 1, [storedTicket 1 "Nobody" "deleted"], []⟩
    ⟨hostEvent StateCritical "down", 1⟩
    { ID := 2, Queue := "general", Owner := "Nobody",
      Subject := formatEventSubject (hostEvent StateOK "up"), Status := "new",
      Text := "Output: " ++ "up" }
    [storedTicket 1 "Nobody" "deleted",
     { ID := 2, Queue := "general", Owner := "Nobody",
       Subject := formatEventSubject (hostEvent StateOK "up"), Status := "new",
       Text := "Output: " ++ "up" }]
    (by decide) rfl rfl (Or.inr ⟨storedTicket 1 "Nobody" "deleted", rfl, rfl⟩) rfl

theorem updateTicket_run_new (t : ticketUpdater σ) (e : Notification) (w : world σ)
    (newTicket : rt.Ticket) (s : σ)
    (hpf : t.pf e = true) (hstate : e.CheckResult.State ≠ StateOK)
    (hget : w.cache.getEventTicket e = .ok none)
    (hnew : t.rtClient.NewTicket
        { ID := 0, Queue := t.queue, Owner := "", Subject := formatEventSubject e, Status := "",
          Text := "Output: " ++ e.CheckResult.Output } w.rtState = (.ok newTicket, s)) :
    t.updateTicket e w =
      (none, { cache := (w.cache.updateEventTicket e newTicket.ID).2, rtState := s,
               calls := w.calls ++ [rt.Call.NewTicket
                 { ID := 0, Queue := t.queue, Owner := "", Subject := formatEventSubject e,
                   Status := "", Text := "Output: " ++ e.CheckResult.Output }] }) := by
  have hio := getEventTicket_ok_ioError hget
  have hrun : t.updateTicket e w = t.createTicket e w := by
    simp [ticketUpdater.updateTicket, hget, hpf, ticketUpdater.newEvent, hstate]
  rw [hrun, createTicket_of_success t e w newTicket s hio hnew]

theorem updateTicket_run_delete (t : ticketUpdater σ) (e : Notification) (w : world σ)
    (et : eventTicket) (first second updated : rt.Ticket) (s1 s2 s3 : σ)
    (hpf : t.pf e = true) (hstate : e.CheckResult.State = StateOK)
    (hget : w.cache.getEventTicket e = .ok (some et))
    (hfirst : t.rtClient.Ticket et.TicketID w.rtState = (.ok first, s1))
    (hstatus : first.Status ≠ "deleted")
    (hsecond : t.rtClient.Ticket et.TicketID s1 = (.ok second, s2))
    (howner : second.Owner = t.nobody)
    (hupdate : t.rtClient.UpdateTicket
        { ID := et.TicketID, Queue := "", Owner := "", Subject := "", Status := "deleted",
          Text := "" } s2 = (.ok updated, s3)) :
    t.updateTicket e w =
      (none, { cache := (w.cache.deleteEventTicket e).2, rtState := s3,
               calls := w.calls ++
                [rt.Call.Ticket et.TicketID, rt.Call.Ticket et.TicketID,
                 rt.Call.UpdateTicket
                  { ID := et.TicketID, Queue := "", Owner := "", Subject := "",
                    Status := "deleted", Text := "" }] }) := by
  have hio := getEventTicket_ok_ioError hget
  simp [ticketUpdater.updateTicket, hget, hpf, ticketUpdater.oldEvent,
    ticketUpdater.callTicket, hfirst, hstatus, hstate, ticketUpdater.deleteOrCommentTicket,
    hsecond, howner, ticketUpdater.deleteTicket, ticketUpdater.callUpdateTicket, hupdate,
    cache.deleteEventTicket, hio]

theorem updateTicket_run_forget (t : ticketUpdater σ) (e : Notification) (w : world σ)
    (et : eventTicket) (first second : rt.Ticket) (s1 s2 s3 : σ)
    (hpf : t.pf e = true) (hstate : e.CheckResult.State = StateOK)
    (hget : w.cache.getEventTicket e = .ok (some et))
    (hfirst : t.rtClient.Ticket et.TicketID w.rtState = (.ok first, s1))
    (hstatus : first.Status ≠ "deleted")
    (hsecond : t.rtClient.Ticket et.TicketID s1 = (.ok second, s2))
    (howner : second.Owner ≠ t.nobody)
    (hcomment : t.rtClient.CommentTicket et.TicketID (formatEventComment e) s2 = (none, s3)) :
    t.updateTicket e w =
      (none, { cache := ((w.cache.updateEventTicket e et.TicketID).2.deleteEventTicket e).2,
               rtState := s3,
               calls := w.calls ++
                [rt.Call.Ticket et.TicketID, rt.Call.Ticket et.TicketID,
                 rt.Call.CommentTicket et.TicketID (formatEventComment e)] }) := by
  have hio := getEventTicket_ok_ioError hget
  simp [ticketUpdater.updateTicket, hget, hpf, ticketUpdater.oldEvent,
    ticketUpdater.callTicket, hfirst, hstatus, hstate, ticketUpdater.deleteOrCommentTicket,
    hsecond, howner, ticketUpdater.commentTicket, ticketUpdater.callCommentTicket, hcomment,
    cache.updateEventTicket, cache.deleteEventTicket, hio]

theorem cache_delete_update (c : cache) (p r : Notification) (ticketID : Int)
    (hhost : p.Host = r.Host) (hservice : p.Service = r.Service)
    (hget : c.getEventTicket p = .ok none) :
    ((c.updateEventTicket p ticketID).2.deleteEventTicket r).2 = c := by
  have hio := getEventTicket_ok_ioError hget
  have hnone : c.entries (r.Host, r.Service) = none := by
    simpa [cache.getEventTicket, hio, hhost, hservice] using hget
  cases c with
  | mk entries ioError =>
    simp only [] at hio hnone
    subst hio
    simp only [cache.updateEventTicket, cache.deleteEventTicket, hhost, hservice, cache.mk.injEq,
      and_true]
    funext k
    by_cases hk : k = (r.Host, r.Service)
    · simp [hk, hnone]
    · simp [hk]

theorem cache_delete_update_update (c : cache) (p r : Notification) (ticketID other : Int)
    (hhost : p.Host = r.Host) (hservice : p.Service = r.Service)
    (hget : c.getEventTicket p = .ok none) :
    (((c.updateEventTicket p ticketID).2.updateEventTicket r other).2.deleteEventTicket r).2 =
      c := by
  have hio := getEventTicket_ok_ioError hget
  have hnone : c.entries (r.Host, r.Service) = none := by
    simpa [cache.getEventTicket, hio, hhost, hservice] using hget
  cases c with
  | mk entries ioError =>
    simp only [] at hio hnone
    subst hio
    simp only [cache.updateEventTicket, cache.deleteEventTicket, hhost, hservice, cache.mk.injEq,
      and_true]
    funext k
    by_cases hk : k = (r.Host, r.Service)
    · simp [hk, hnone]
    · simp [hk]

/-- C20: problem, then recovery.  For a cache with no entry for a key, a
permitted notification p whose state is not OK and a permitted notification r
with state OK for that key: if the create call succeeds and returns
`newTicket`, both lookups of `newTicket.ID` then succeed, the first with a
status other than "deleted" (and whatever owner the second reports), and the
status update (owner nobody) or the comment (any other owner) succeeds, then
both `updateTicket` steps return no error and the cache after them is equal to
the cache before them: no entry for the key, every other entry unchanged. -/
theorem updateTicket_problem_then_recovery (t : ticketUpdater σ) (p r : Notification)
    (w : world σ) (newTicket first second : rt.Ticket) (s1 s2 s3 : σ)
    (hhost : p.Host = r.Host) (hservice : p.Service = r.Service)
    (hpfp : t.pf p = true) (hpfr : t.pf r = true)
    (hp : p.CheckResult.State ≠ StateOK) (hr : r.CheckResult.State = StateOK)
    (hget : w.cache.getEventTicket p = .ok none)
    (hnew : t.rtClient.NewTicket
        { ID := 0, Queue := t.queue, Owner := "", Subject := formatEventSubject p, Status := "",
          Text := "Output: " ++ p.CheckResult.Output } w.rtState = (.ok newTicket, s1))
    (hfirst : t.rtClient.Ticket newTicket.ID s1 = (.ok first, s2))
    (hstatus : first.Status ≠ "deleted")
    (hsecond : t.rtClient.Ticket newTicket.ID s2 = (.ok second, s3))
    (hdone : if second.Owner = t.nobody then
        ∃ updated, (t.rtClient.UpdateTicket
          { ID := newTicket.ID, Queue := "", Owner := "", Subject := "", Status := "deleted",
            Text := "" } s3).1 = .ok updated
      else (t.rtClient.CommentTicket newTicket.ID (formatEventComment r) s3).1 = none) :
    (t.updateTicket p w).1 = none ∧
    (t.updateTicket r (t.updateTicket p w).2).1 = none ∧
    (t.updateTicket r (t.updateTicket p w).2).2.cache = w.cache ∧
    (t.updateTicket r (t.updateTicket p w).2).2.cache.getEventTicket r = .ok none := by
  have hio := getEventTicket_ok_ioError hget
  have hgetr : w.cache.getEventTicket r = .ok none := by
    rw [← getEventTicket_same_key w.cache p r hhost hservice]; exact hget
  rw [updateTicket_run_new t p w newTicket s1 hpfp hp hget hnew]
  have hentry : (w.cache.updateEventTicket p newTicket.ID).2.getEventTicket r =
      .ok (some { Event := p, TicketID := newTicket.ID }) := by
    rw [← getEventTicket_same_key _ p r hhost hservice]
    exact getEventTicket_updateEventTicket w.cache p newTicket.ID hio
  by_cases howner : second.Owner = t.nobody
  · rw [if_pos howner] at hdone
    obtain ⟨updated, hupdated⟩ := hdone
    rw [updateTicket_run_delete t r _ { Event := p, TicketID := newTicket.ID } first second
      updated s2 s3 _ hpfr hr hentry hfirst hstatus hsecond howner
      (Prod.ext hupdated rfl)]
    refine ⟨rfl, rfl, ?_, ?_⟩
    · exact cache_delete_update w.cache p r newTicket.ID hhost hservice hget
    · rw [cache_delete_update w.cache p r newTicket.ID hhost hservice hget]; exact hgetr
  · rw [if_neg howner] at hdone
    rw [updateTicket_run_forget t r _ { Event := p, TicketID := newTicket.ID } first second
      s2 s3 _ hpfr hr hentry hfirst hstatus hsecond howner (Prod.ext hdone rfl)]
    refine ⟨rfl, rfl, ?_, ?_⟩
    · exact cache_delete_update_update w.cache p r newTicket.ID newTicket.ID hhost hservice hget
    · rw [cache_delete_update_update w.cache p r newTicket.ID newTicket.ID hhost hservice hget]
      exact hgetr

theorem updateTicket_problem_then_recovery_witness :
    (memUpdater.updateTicket (hostEvent StateCritical "down") ⟨emptyCache, [], []⟩).1 = none ∧
    (memUpdater.updateTicket (hostEvent StateOK "up")
      (memUpdater.updateTicket (hostEvent StateCritical "down") ⟨emptyCache, [], []⟩).2).1 = none ∧
    (memUpdater.updateTicket (hostEvent StateOK "up")
      (memUpdater.updateTicket (hostEvent StateCritical "down")
        ⟨emptyCache, [], []⟩).2).2.cache = emptyCache ∧
    (memUpdater.updateTicket (hostEvent StateOK "up")
      (memUpdater.updateTicket (hostEvent StateCritical "down")
        ⟨emptyCache, [], []⟩).2).2.cache.getEventTicket (hostEvent StateOK "up") = .ok none :=
  updateTicket_problem_then_recovery memUpdater (hostEvent StateCritical "down")
    (hostEvent StateOK "up") ⟨emptyCache, [], []⟩
    { ID := 1, Queue := "general", Owner := "Nobody",
      Subject := formatEventSubject (hostEvent StateCritical "down"), Status := "new",
      Text := "Output: " ++ "down" }
    { ID := 1, Queue := "general", Owner := "Nobody",
      Subject := formatEventSubject (hostEvent StateCritical "down"), Status := "new",
      Text := "Output: " ++ "down" }
    { ID := 1, Queue := "general", Owner := "Nobody",
      Subject := formatEventSubject (hostEvent StateCritical "down"), Status := "new",
      Text := "Output: " ++ "down" }
    [{ ID := 1, Queue := "general", Owner := "Nobody",
       Subject := formatEventSubject (hostEvent StateCritical "down"), Status := "new",
       Text := "Output: " ++ "down" }]
    [{ ID := 1, Queue := "general", Owner := "Nobody",
       Subject := formatEventSubject (hostEvent StateCritical "down"), Status := "new",
       Text := "Output: " ++ "down" }]
    [{ ID := 1, Queue := "general", Owner := "Nobody",
       Subject := formatEventSubject (hostEvent StateCritical "down"), Status := "new",
       Text := "Output: " ++ "down" }]
    rfl rfl (by decide) (by decide) (by decide) rfl rfl rfl rfl (by decide) rfl
    (by
      rw [if_pos (by decide)]
      exact ⟨_, rfl⟩)

theorem createTicket_none_entry (t : ticketUpdater σ) (e : Notification) (w : world σ)
    (hnone : (t.createTicket e w).1 = none) :
    ∃ newTicket,
      (t.rtClient.NewTicket
        { ID := 0, Queue := t.queue, Owner := "", Subject := formatEventSubject e, Status := "",
          Text := "Output: " ++ e.CheckResult.Output } w.rtState).1 = .ok newTicket ∧
      (t.createTicket e w).2.cache.getEventTicket e =
        .ok (some { Event := e, TicketID := newTicket.ID }) := by
  unfold ticketUpdater.createTicket at hnone ⊢
  simp only [ticketUpdater.callNewTicket] at hnone ⊢
  cases hnew : (t.rtClient.NewTicket
        { ID := 0, Queue := t.queue, Owner := "", Subject := formatEventSubject e, Status := "",
          Text := "Output: " ++ e.CheckResult.Output } w.rtState).1 with
  | error err => simp [hnew] at hnone
  | ok newTicket =>
    cases hio : w.cache.ioError with
    | some err => simp [hnew, cache.updateEventTicket, hio] at hnone
    | none => exact ⟨newTicket, rfl, by simp [cache.updateEventTicket, hio, cache.getEventTicket]⟩

theorem commentTicket_none_entry (t : ticketUpdater σ) (newEvent oldEvent : Notification)
    (ticketID : Int) (w : world σ)
    (hnone : (t.commentTicket newEvent oldEvent ticketID w).1 = none) :
    (t.commentTicket newEvent oldEvent ticketID w).2.cache.getEventTicket newEvent =
      .ok (some { Event := newEvent, TicketID := ticketID }) := by
  unfold ticketUpdater.commentTicket at hnone ⊢
  simp only [ticketUpdater.callCommentTicket] at hnone ⊢
  cases hcomment : (t.rtClient.CommentTicket ticketID (formatEventComment newEvent) w.rtState).1 with
  | some err => simp [hcomment] at hnone
  | none =>
    cases hio : w.cache.ioError with
    | some err => simp [hcomment, cache.updateEventTicket, hio] at hnone
    | none => simp [cache.updateEventTicket, hio, cache.getEventTicket]

theorem deleteTicket_none_entry (t : ticketUpdater σ) (newEvent oldEvent : Notification)
    (ticketID : Int) (w : world σ)
    (hnone : (t.deleteTicket newEvent oldEvent ticketID w).1 = none) :
    (t.deleteTicket newEvent oldEvent ticketID w).2.cache.getEventTicket newEvent = .ok none := by
  unfold ticketUpdater.deleteTicket at hnone ⊢
  simp only [ticketUpdater.callUpdateTicket] at hnone ⊢
  cases hupdate : (t.rtClient.UpdateTicket
        { ID := ticketID, Queue := "", Owner := "", Subject := "", Status := "deleted",
          Text := "" } w.rtState).1 with
  | error err => simp [hupdate] at hnone
  | ok updated =>
    cases hio : w.cache.ioError with
    | some err => simp [hupdate, cache.deleteEventTicket, hio] at hnone
    | none => simp [cache.deleteEventTicket, hio, cache.getEventTicket]

theorem deleteOrCommentTicket_none_entry (t : ticketUpdater σ) (newEvent oldEvent : Notification)
    (ticketID : Int) (w : world σ)
    (hnone : (t.deleteOrCommentTicket newEvent oldEvent ticketID w).1 = none) :
    (t.deleteOrCommentTicket newEvent oldEvent ticketID w).2.cache.getEventTicket newEvent =
      .ok none := by
  unfold ticketUpdater.deleteOrCommentTicket at hnone ⊢
  cases hlook : (t.callTicket ticketID w).1 with
  | error err =>
    rw [← Prod.mk.eta (p := t.callTicket ticketID w), hlook] at hnone
    simp at hnone
  | ok old =>
    rw [← Prod.mk.eta (p := t.callTicket ticketID w), hlook] at hnone ⊢
    simp only [] at hnone ⊢
    by_cases howner : old.Owner = t.nobody
    · simp only [howner, if_true] at hnone ⊢
      exact deleteTicket_none_entry t newEvent oldEvent ticketID _ hnone
    · simp only [howner, if_false] at hnone ⊢
      cases hcomment : (t.commentTicket newEvent oldEvent ticketID (t.callTicket ticketID w).2).1 with
      | some err =>
        rw [← Prod.mk.eta (p := t.commentTicket newEvent oldEvent ticketID (t.callTicket ticketID w).2),
          hcomment] at hnone
        simp at hnone
      | none =>
        have hentry := commentTicket_none_entry t newEvent oldEvent ticketID _ hcomment
        have hio := getEventTicket_ok_ioError hentry
        rw [← Prod.mk.eta (p := t.commentTicket newEvent oldEvent ticketID (t.callTicket ticketID w).2),
          hcomment]
        simp only []
        exact getEventTicket_deleteEventTicket _ newEvent hio

theorem updateTicket_of_entry (t : ticketUpdater σ) (e : Notification) (w : world σ)
    (et : eventTicket) (hget : w.cache.getEventTicket e = .ok (some et)) :
    t.updateTicket e w =
      if t.pf e = true then t.oldEvent e et.Event et.TicketID w else (none, w) := by
  by_cases hpf : t.pf e = true <;> simp [ticketUpdater.updateTicket, hget, hpf]

/-- C13: for every `updateTicket` step that returns no error, on a key whose
cache entry held ticket id X before the step, exactly one of the following
holds afterwards: the entry still holds id X; or the entry holds a newly
created ticket id (the id, other than X, that the create call returned) and
the lookup of X failed or returned status "deleted"; or the entry has been
removed and the state of the notification is OK with ticket X found and not
deleted. -/
theorem updateTicket_entry_fate (t : ticketUpdater σ) (e : Notification) (w : world σ)
    (et : eventTicket)
    (hget : w.cache.getEventTicket e = .ok (some et))
    (hnone : (t.updateTicket e w).1 = none) :
    (entryKept t e w et.TicketID ∨ entryReplaced t e w et.TicketID ∨
      entryRemoved t e w et.TicketID) ∧
    ¬ (entryKept t e w et.TicketID ∧ entryReplaced t e w et.TicketID) ∧
    ¬ (entryKept t e w et.TicketID ∧ entryRemoved t e w et.TicketID) ∧
    ¬ (entryReplaced t e w et.TicketID ∧ entryRemoved t e w et.TicketID) := by
  refine ⟨?_, ?_, ?_, ?_⟩
  · unfold entryKept entryReplaced entryRemoved
    rw [updateTicket_of_entry t e w et hget] at hnone ⊢
    by_cases hpf : t.pf e = true
    · simp only [hpf, if_true] at hnone ⊢
      have hcreate : (t.oldEvent e et.Event et.TicketID w =
            t.createTicket e (t.callTicket et.TicketID w).2) →
          ((∃ err, (t.rtClient.Ticket et.TicketID w.rtState).1 = .error err) ∨
            (∃ old, (t.rtClient.Ticket et.TicketID w.rtState).1 = .ok old ∧
              old.Status = "deleted")) →
          ((∃ entry, (t.oldEvent e et.Event et.TicketID w).2.cache.getEventTicket e =
                .ok (some entry) ∧ entry.TicketID = et.TicketID) ∨
            (∃ entry newTicket,
              (t.oldEvent e et.Event et.TicketID w).2.cache.getEventTicket e =
                .ok (some entry) ∧
              entry.TicketID ≠ et.TicketID ∧
              (t.rtClient.NewTicket
                { ID := 0, Queue := t.queue, Owner := "", Subject := formatEventSubject e,
                  Status := "", Text := "Output: " ++ e.CheckResult.Output }
                (t.rtClient.Ticket et.TicketID w.rtState).2).1 = .ok newTicket ∧
              entry.TicketID = newTicket.ID ∧
              ((∃ err, (t.rtClient.Ticket et.TicketID w.rtState).1 = .error err) ∨
                (∃ old, (t.rtClient.Ticket et.TicketID w.rtState).1 = .ok old ∧
                  old.Status = "deleted"))) ∨
            ((t.oldEvent e et.Event et.TicketID w).2.cache.getEventTicket e = .ok none ∧
              e.CheckResult.State = StateOK ∧
              ∃ old, (t.rtClient.Ticket et.TicketID w.rtState).1 = .ok old ∧
                old.Status ≠ "deleted")) := by
        intro hrun hgone
        rw [hrun] at hnone ⊢
        obtain ⟨newTicket, hnew, hentry⟩ := createTicket_none_entry t e _ hnone
        by_cases hid : newTicket.ID = et.TicketID
        · exact Or.inl ⟨_, hentry, hid⟩
        · exact Or.inr (Or.inl ⟨_, newTicket, hentry, hid, hnew, rfl, hgone⟩)
      cases hlook : (t.callTicket et.TicketID w).1 with
      | error err =>
        apply hcreate
        · unfold ticketUpdater.oldEvent
          rw [← Prod.mk.eta (p := t.callTicket et.TicketID w), hlook]
        · exact Or.inl ⟨err, hlook⟩
      | ok old =>
        by_cases hdel : old.Status = "deleted"
        · apply hcreate
          · unfold ticketUpdater.oldEvent
            rw [← Prod.mk.eta (p := t.callTicket et.TicketID w), hlook]
            simp [hdel]
          · exact Or.inr ⟨old, hlook, hdel⟩
        · by_cases hstate : e.CheckResult.State = StateOK
          · have hrun : t.oldEvent e et.Event et.TicketID w =
                t.deleteOrCommentTicket e et.Event et.TicketID (t.callTicket et.TicketID w).2 := by
              unfold ticketUpdater.oldEvent
              rw [← Prod.mk.eta (p := t.callTicket et.TicketID w), hlook]
              simp [hdel, hstate]
            rw [hrun] at hnone ⊢
            exact Or.inr (Or.inr
              ⟨deleteOrCommentTicket_none_entry t e et.Event et.TicketID _ hnone, hstate, old,
                hlook, hdel⟩)
          · left
            by_cases hsame : e.CheckResult.State = et.Event.CheckResult.State
            · have hstate2 : ¬ et.Event.CheckResult.State = StateOK :=
                fun h => hstate (hsame.trans h)
              have hrun : t.oldEvent e et.Event et.TicketID w =
                  (none, (t.callTicket et.TicketID w).2) := by
                unfold ticketUpdater.oldEvent
                rw [← Prod.mk.eta (p := t.callTicket et.TicketID w), hlook]
                simp [hdel, hsame, hstate2]
              rw [hrun]
              exact ⟨et, hget, rfl⟩
            · have hrun : t.oldEvent e et.Event et.TicketID w =
                  t.commentTicket e et.Event et.TicketID (t.callTicket et.TicketID w).2 := by
                unfold ticketUpdater.oldEvent
                rw [← Prod.mk.eta (p := t.callTicket et.TicketID w), hlook]
                simp [hdel, hsame, hstate]
              rw [hrun] at hnone ⊢
              exact ⟨_, commentTicket_none_entry t e et.Event et.TicketID _ hnone, rfl⟩
    · simp only [hpf, if_false]
      exact Or.inl ⟨et, hget, rfl⟩
  · rintro ⟨⟨entry, h1, hX⟩, ⟨entry2, _, h2, hne, _⟩⟩
    rw [h1] at h2
    cases h2
    exact hne hX
  · rintro ⟨⟨entry, h1, _⟩, ⟨h2, _⟩⟩
    rw [h1] at h2
    cases h2
  · rintro ⟨⟨entry, _, h1, _⟩, ⟨h2, _⟩⟩
    rw [h1] at h2
    cases h2

theorem updateTicket_entry_fate_witness :
    (entryKept memUpdater (hostEvent StateWarning "slow")
        ⟨singleCache (hostEvent StateCritical "down") 7, [], []⟩ 7 ∨
      entryReplaced memUpdater (hostEvent StateWarning "slow")
        ⟨singleCache (hostEvent StateCritical "down") 7, [], []⟩ 7 ∨
      entryRemoved memUpdater (hostEvent StateWarning "slow")
        ⟨singleCache (hostEvent StateCritical "down") 7, [], []⟩ 7) ∧
    ¬ (entryKept memUpdater (hostEvent StateWarning "slow")
        ⟨singleCache (hostEvent StateCritical "down") 7, [], []⟩ 7 ∧
      entryReplaced memUpdater (hostEvent StateWarning "slow")
        ⟨singleCache (hostEvent StateCritical "down") 7, [], []⟩ 7) ∧
    ¬ (entryKept memUpdater (hostEvent StateWarning "slow")
        ⟨singleCache (hostEvent StateCritical "down") 7, [], []⟩ 7 ∧
      entryRemoved memUpdater (hostEvent StateWarning "slow")
        ⟨singleCache (hostEvent StateCritical "down") 7, [], []⟩ 7) ∧
    ¬ (entryReplaced memUpdater (hostEvent StateWarning "slow")
        ⟨singleCache (hostEvent StateCritical "down") 7, [], []⟩ 7 ∧
      entryRemoved memUpdater (hostEvent StateWarning "slow")
        ⟨singleCache (hostEvent StateCritical "down") 7, [], []⟩ 7) :=
  updateTicket_entry_fate memUpdater (hostEvent StateWarning "slow")
    ⟨singleCache (hostEvent StateCritical "down") 7, [], []⟩
    ⟨hostEvent StateCritical "down", 7⟩ rfl (by decide)

theorem createTicket_succeeds (t : ticketUpdater σ) (e : Notification) (w : world σ)
    (hio : w.cache.ioError = none)
    (hcreate : ∀ ticket s, ∃ newTicket, (t.rtClient.NewTicket ticket s).1 = .ok newTicket) :
    (t.createTicket e w).1 = none := by
  obtain ⟨newTicket, hnew⟩ := hcreate
    { ID := 0, Queue := t.queue, Owner := "", Subject := formatEventSubject e, Status := "",
      Text := "Output: " ++ e.CheckResult.Output } w.rtState
  rw [createTicket_of_success t e w newTicket _ hio (Prod.ext hnew rfl)]

theorem commentTicket_succeeds (t : ticketUpdater σ) (newEvent oldEvent : Notification)
    (ticketID : Int) (w : world σ) (hio : w.cache.ioError = none)
    (hcomment : ∀ id text s, (t.rtClient.CommentTicket id text s).1 = none) :
    (t.commentTicket newEvent oldEvent ticketID w).1 = none ∧
    (t.commentTicket newEvent oldEvent ticketID w).2.cache.ioError = none := by
  rw [commentTicket_of_success t newEvent oldEvent ticketID w _ hio
    (Prod.ext (hcomment ticketID (formatEventComment newEvent) w.rtState) rfl)]
  exact ⟨rfl, by simp [cache.updateEventTicket, hio]⟩

theorem deleteTicket_succeeds (t : ticketUpdater σ) (newEvent oldEvent : Notification)
    (ticketID : Int) (w : world σ) (hio : w.cache.ioError = none)
    (hupdate : ∀ ticket s, ∃ updated, (t.rtClient.UpdateTicket ticket s).1 = .ok updated) :
    (t.deleteTicket newEvent oldEvent ticketID w).1 = none := by
  obtain ⟨updated, hupdated⟩ := hupdate
    { ID := ticketID, Queue := "", Owner := "", Subject := "", Status := "deleted", Text := "" }
    w.rtState
  simp [ticketUpdater.deleteTicket, ticketUpdater.callUpdateTicket, hupdated,
    cache.deleteEventTicket, hio]

theorem deleteOrCommentTicket_error (t : ticketUpdater σ) (newEvent oldEvent : Notification)
    (ticketID : Int) (w : world σ) (err : String) (hio : w.cache.ioError = none)
    (hcomment : ∀ id text s, (t.rtClient.CommentTicket id text s).1 = none)
    (hupdate : ∀ ticket s, ∃ updated, (t.rtClient.UpdateTicket ticket s).1 = .ok updated)
    (herr : (t.deleteOrCommentTicket newEvent oldEvent ticketID w).1 = some err) :
    (t.rtClient.Ticket ticketID w.rtState).1 = .error err := by
  unfold ticketUpdater.deleteOrCommentTicket at herr
  cases hlook : (t.callTicket ticketID w).1 with
  | error err2 =>
    rw [← Prod.mk.eta (p := t.callTicket ticketID w), hlook] at herr
    simp only [Option.some.injEq] at herr
    rw [← herr]
    exact hlook
  | ok old =>
    rw [← Prod.mk.eta (p := t.callTicket ticketID w), hlook] at herr
    simp only [] at herr
    by_cases howner : old.Owner = t.nobody
    · simp only [howner, if_true] at herr
      rw [deleteTicket_succeeds t newEvent oldEvent ticketID (t.callTicket ticketID w).2 hio
        hupdate] at herr
      cases herr
    · simp only [howner, if_false] at herr
      obtain ⟨h1, h2⟩ := commentTicket_succeeds t newEvent oldEvent ticketID
        (t.callTicket ticketID w).2 hio hcomment
      rw [← Prod.mk.eta (p := t.commentTicket newEvent oldEvent ticketID (t.callTicket ticketID w).2),
        h1] at herr
      simp [cache.deleteEventTicket, h2] at herr

/-- C11, as stated, fails: on the scripted ticket system, where create,
comment and status update always succeed, and with an available cache that
holds ticket 1 for the key ("h1", "svc"), an OK notification whose first
lookup finds ticket 1 open and whose second lookup fails makes `updateTicket`
return the error of that second lookup, after two lookups and no create
call. -/
theorem updateTicket_second_lookup_counterexample :
    (singleCache (serviceEvent StateCritical "down") 1).ioError = none ∧
    scriptUpdater.pf (serviceEvent StateOK "up") = true ∧
    (scriptUpdater.updateTicket (serviceEvent StateOK "up")
      ⟨singleCache (serviceEvent StateCritical "down") 1,
        [.ok (storedTicket 1 "alice" "open"), .error "lookup timed out"], []⟩).1 =
      some "lookup timed out" ∧
    (scriptUpdater.updateTicket (serviceEvent StateOK "up")
      ⟨singleCache (serviceEvent StateCritical "down") 1,
        [.ok (storedTicket 1 "alice" "open"), .error "lookup timed out"], []⟩).2.calls =
      [rt.Call.Ticket 1, rt.Call.Ticket 1] := by
  refine ⟨rfl, by decide, by decide, by decide⟩

/-- C11, amended: when the cache is available and every create, comment and
status-update call succeeds, a failure of the lookup that `oldEvent` makes is
never returned as an error: `updateTicket` returns no error and handles it by
one create call; and the only error that `updateTicket` can return is the
failure of the second lookup, the one that `deleteOrCommentTicket` makes for a
notification with state OK after the first lookup found the ticket with a
status other than "deleted". -/
theorem updateTicket_lookup_failure_handling (t : ticketUpdater σ) (e : Notification)
    (w : world σ)
    (hio : w.cache.ioError = none)
    (hcreate : ∀ ticket s, ∃ newTicket, (t.rtClient.NewTicket ticket s).1 = .ok newTicket)
    (hcomment : ∀ id text s, (t.rtClient.CommentTicket id text s).1 = none)
    (hupdate : ∀ ticket s, ∃ updated, (t.rtClient.UpdateTicket ticket s).1 = .ok updated) :
    (∀ et err, w.cache.getEventTicket e = .ok (some et) → t.pf e = true →
      (t.rtClient.Ticket et.TicketID w.rtState).1 = .error err →
      (t.updateTicket e w).1 = none ∧
      (t.updateTicket e w).2.calls = w.calls ++
        [rt.Call.Ticket et.TicketID,
         rt.Call.NewTicket
          { ID := 0, Queue := t.queue, Owner := "", Subject := formatEventSubject e,
            Status := "", Text := "Output: " ++ e.CheckResult.Output }]) ∧
    (∀ err, (t.updateTicket e w).1 = some err →
      e.CheckResult.State = StateOK ∧
      ∃ et old, w.cache.getEventTicket e = .ok (some et) ∧
        (t.rtClient.Ticket et.TicketID w.rtState).1 = .ok old ∧ old.Status ≠ "deleted" ∧
        (t.rtClient.Ticket et.TicketID (t.rtClient.Ticket et.TicketID w.rtState).2).1 =
          .error err) := by
  constructor
  · intro et err hget hpf hlook
    obtain ⟨newTicket, hnew⟩ := hcreate
      { ID := 0, Queue := t.queue, Owner := "", Subject := formatEventSubject e, Status := "",
        Text := "Output: " ++ e.CheckResult.Output } (t.rtClient.Ticket et.TicketID w.rtState).2
    rw [updateTicket_run_create t e w et newTicket _ hpf hget (Or.inl ⟨err, hlook⟩)
      (Prod.ext hnew rfl)]
    exact ⟨rfl, rfl⟩
  · intro err herr
    have hgetok : w.cache.getEventTicket e = .ok (w.cache.entries (e.Host, e.Service)) := by
      simp [cache.getEventTicket, hio]
    cases hfound : w.cache.entries (e.Host, e.Service) with
    | none =>
      rw [hfound] at hgetok
      exfalso
      by_cases hpf : t.pf e = true
      · by_cases hstate : e.CheckResult.State = StateOK
        · simp [ticketUpdater.updateTicket, hgetok, hpf, ticketUpdater.newEvent, hstate] at herr
        · have hrun : t.updateTicket e w = t.createTicket e w := by
            simp [ticketUpdater.updateTicket, hgetok, hpf, ticketUpdater.newEvent, hstate]
          rw [hrun, createTicket_succeeds t e w hio hcreate] at herr
          cases herr
      · simp [ticketUpdater.updateTicket, hgetok, hpf] at herr
    | some et =>
      rw [hfound] at hgetok
      rw [updateTicket_of_entry t e w et hgetok] at herr
      by_cases hpf : t.pf e = true
      · simp only [hpf, if_true] at herr
        have hcreated : t.oldEvent e et.Event et.TicketID w =
            t.createTicket e (t.callTicket et.TicketID w).2 → False := by
          intro hrun
          rw [hrun, createTicket_succeeds t e (t.callTicket et.TicketID w).2 hio hcreate] at herr
          cases herr
        cases hlook : (t.callTicket et.TicketID w).1 with
        | error err2 =>
          exfalso
          apply hcreated
          unfold ticketUpdater.oldEvent
          rw [← Prod.mk.eta (p := t.callTicket et.TicketID w), hlook]
        | ok old =>
          by_cases hdel : old.Status = "deleted"
          · exfalso
            apply hcreated
            unfold ticketUpdater.oldEvent
            rw [← Prod.mk.eta (p := t.callTicket et.TicketID w), hlook]
            simp [hdel]
          · by_cases hstate : e.CheckResult.State = StateOK
            · have hrun : t.oldEvent e et.Event et.TicketID w =
                  t.deleteOrCommentTicket e et.Event et.TicketID (t.callTicket et.TicketID w).2 := by
                unfold ticketUpdater.oldEvent
                rw [← Prod.mk.eta (p := t.callTicket et.TicketID w), hlook]
                simp [hdel, hstate]
              rw [hrun] at herr
              have hsecond := deleteOrCommentTicket_error t e et.Event et.TicketID
                (t.callTicket et.TicketID w).2 err hio hcomment hupdate herr
              exact ⟨hstate, et, old, hgetok, hlook, hdel, hsecond⟩
            · exfalso
              by_cases hsame : e.CheckResult.State = et.Event.CheckResult.State
              · have hstate2 : ¬ et.Event.CheckResult.State = StateOK :=
                  fun h => hstate (hsame.trans h)
                have hrun : t.oldEvent e et.Event et.TicketID w =
                    (none, (t.callTicket et.TicketID w).2) := by
                  unfold ticketUpdater.oldEvent
                  rw [← Prod.mk.eta (p := t.callTicket et.TicketID w), hlook]
                  simp [hdel, hsame, hstate2]
                rw [hrun] at herr
                cases herr
              · have hrun : t.oldEvent e et.Event et.TicketID w =
                    t.commentTicket e et.Event et.TicketID (t.callTicket et.TicketID w).2 := by
                  unfold ticketUpdater.oldEvent
                  rw [← Prod.mk.eta (p := t.callTicket et.TicketID w), hlook]
                  simp [hdel, hsame, hstate]
                rw [hrun, (commentTicket_succeeds t e et.Event et.TicketID
                  (t.callTicket et.TicketID w).2 hio hcomment).1] at herr
                cases herr
      · simp [hpf] at herr

theorem updateTicket_lookup_failure_handling_witness :
    (scriptUpdater.updateTicket (hostEvent StateWarning "slow")
      ⟨singleCache (hostEvent StateCritical "down") 1, [.error "lookup timed out"], []⟩).1 =
      none ∧
    (scriptUpdater.updateTicket (hostEvent StateWarning "slow")
      ⟨singleCache (hostEvent StateCritical "down") 1, [.error "lookup timed out"],
        []⟩).2.calls = [] ++
      [rt.Call.Ticket 1,
       rt.Call.NewTicket
        { ID := 0, Queue := "general", Owner := "",
          Subject := formatEventSubject (hostEvent StateWarning "slow"),
          Status := "", Text := "Output: " ++ "slow" }] :=
  (updateTicket_lookup_failure_handling scriptUpdater (hostEvent StateWarning "slow")
    ⟨singleCache (hostEvent StateCritical "down") 1, [.error "lookup timed out"], []⟩
    rfl (fun _ _ => ⟨_, rfl⟩) (fun _ _ _ => rfl) (fun _ _ => ⟨_, rfl⟩)).1
    ⟨hostEvent StateCritical "down", 1⟩ "lookup timed out" rfl (by decide) rfl

/-! Errors of the attempted mutation -/

theorem replay_append (c : rt.Client σ) (xs ys : List rt.Call) (s : σ) :
    c.replay (xs ++ ys) s = c.replay ys (c.replay xs s) := by
  induction xs generalizing s with
  | nil => rfl
  | cons x rest ih => simp [rt.Client.replay, ih]

theorem calls_last_eq {calls0 pre lookups : List rt.Call} {c m : rt.Call}
    (h : calls0 ++ pre ++ [c] = calls0 ++ lookups ++ [m]) : lookups = pre ∧ m = c := by
  rw [List.append_assoc, List.append_assoc] at h
  have h2 := List.append_cancel_left h
  have h3 := List.append_inj' h2 rfl
  exact ⟨h3.1.symm, by simpa using h3.2.symm⟩

theorem calls_last_mem {calls0 pre lookups : List rt.Call} {m : rt.Call}
    (h : calls0 ++ pre = calls0 ++ lookups ++ [m]) : m ∈ pre := by
  rw [List.append_assoc] at h
  have h2 := List.append_cancel_left h
  rw [h2]
  simp

theorem createTicket_mutation_error (t : ticketUpdater σ) (e : Notification) (w1 : world σ)
    (calls0 pre : List rt.Call) (s0 : σ)
    (hcalls1 : w1.calls = calls0 ++ pre) (hstate1 : t.rtClient.replay pre s0 = w1.rtState)
    (lookups : List rt.Call) (m : rt.Call) (err : String)
    (hcalls : (t.createTicket e w1).2.calls = calls0 ++ lookups ++ [m])
    (herr : (t.rtClient.answer m (t.rtClient.replay lookups s0)).1 = some err) :
    (t.createTicket e w1).1 = some err ∧ (t.createTicket e w1).2.cache = w1.cache := by
  have hlog : (t.createTicket e w1).2.calls = calls0 ++ pre ++ [rt.Call.NewTicket
      { ID := 0, Queue := t.queue, Owner := "", Subject := formatEventSubject e, Status := "",
        Text := "Output: " ++ e.CheckResult.Output }] := by
    rw [← hcalls1]
    unfold ticketUpdater.createTicket
    simp only [ticketUpdater.callNewTicket]
    cases hnew : (t.rtClient.NewTicket
        { ID := 0, Queue := t.queue, Owner := "", Subject := formatEventSubject e, Status := "",
          Text := "Output: " ++ e.CheckResult.Output } w1.rtState).1 with
    | error err2 => simp
    | ok newTicket => cases hio : w1.cache.ioError <;> simp [cache.updateEventTicket, hio]
  rw [hlog] at hcalls
  obtain ⟨hl, hm⟩ := calls_last_eq hcalls
  subst hl hm
  rw [hstate1] at herr
  simp only [rt.Client.answer] at herr
  cases hnew : (t.rtClient.NewTicket
        { ID := 0, Queue := t.queue, Owner := "", Subject := formatEventSubject e, Status := "",
          Text := "Output: " ++ e.CheckResult.Output } w1.rtState).1 with
  | ok newTicket => simp [hnew, errorOf] at herr
  | error err2 =>
    simp only [hnew, errorOf, Option.some.injEq] at herr
    subst herr
    simp [ticketUpdater.createTicket, ticketUpdater.callNewTicket, hnew]

theorem commentTicket_mutation_error (t : ticketUpdater σ) (newEvent oldEvent : Notification)
    (ticketID : Int) (w1 : world σ)
    (calls0 pre : List rt.Call) (s0 : σ)
    (hcalls1 : w1.calls = calls0 ++ pre) (hstate1 : t.rtClient.replay pre s0 = w1.rtState)
    (lookups : List rt.Call) (m : rt.Call) (err : String)
    (hcalls : (t.commentTicket newEvent oldEvent ticketID w1).2.calls = calls0 ++ lookups ++ [m])
    (herr : (t.rtClient.answer m (t.rtClient.replay lookups s0)).1 = some err) :
    (t.commentTicket newEvent oldEvent ticketID w1).1 = some err ∧
    (t.commentTicket newEvent oldEvent ticketID w1).2.cache = w1.cache := by
  have hlog : (t.commentTicket newEvent oldEvent ticketID w1).2.calls =
      calls0 ++ pre ++ [rt.Call.CommentTicket ticketID (formatEventComment newEvent)] := by
    rw [← hcalls1]
    unfold ticketUpdater.commentTicket
    simp only [ticketUpdater.callCommentTicket]
    cases hcomment : (t.rtClient.CommentTicket ticketID (formatEventComment newEvent)
        w1.rtState).1 with
    | some err2 => simp
    | none => cases hio : w1.cache.ioError <;> simp [cache.updateEventTicket, hio]
  rw [hlog] at hcalls
  obtain ⟨hl, hm⟩ := calls_last_eq hcalls
  subst hl hm
  rw [hstate1] at herr
  simp only [rt.Client.answer] at herr
  simp [ticketUpdater.commentTicket, ticketUpdater.callCommentTicket, herr]

theorem deleteTicket_mutation_error (t : ticketUpdater σ) (newEvent oldEvent : Notification)
    (ticketID : Int) (w1 : world σ)
    (calls0 pre : List rt.Call) (s0 : σ)
    (hcalls1 : w1.calls = calls0 ++ pre) (hstate1 : t.rtClient.replay pre s0 = w1.rtState)
    (lookups : List rt.Call) (m : rt.Call) (err : String)
    (hcalls : (t.deleteTicket newEvent oldEvent ticketID w1).2.calls = calls0 ++ lookups ++ [m])
    (herr : (t.rtClient.answer m (t.rtClient.replay lookups s0)).1 = some err) :
    (t.deleteTicket newEvent oldEvent ticketID w1).1 = some err ∧
    (t.deleteTicket newEvent oldEvent ticketID w1).2.cache = w1.cache := by
  have hlog : (t.deleteTicket newEvent oldEvent ticketID w1).2.calls =
      calls0 ++ pre ++ [rt.Call.UpdateTicket
        { ID := ticketID, Queue := "", Owner := "", Subject := "", Status := "deleted",
          Text := "" }] := by
    rw [← hcalls1]
    unfold ticketUpdater.deleteTicket
    simp only [ticketUpdater.callUpdateTicket]
    cases hupdate : (t.rtClient.UpdateTicket
        { ID := ticketID, Queue := "", Owner := "", Subject := "", Status := "deleted",
          Text := "" } w1.rtState).1 with
    | error err2 => simp
    | ok updated => cases hio : w1.cache.ioError <;> simp [cache.deleteEventTicket, hio]
  rw [hlog] at hcalls
  obtain ⟨hl, hm⟩ := calls_last_eq hcalls
  subst hl hm
  rw [hstate1] at herr
  simp only [rt.Client.answer] at herr
  cases hupdate : (t.rtClient.UpdateTicket
        { ID := ticketID, Queue := "", Owner := "", Subject := "", Status := "deleted",
          Text := "" } w1.rtState).1 with
  | ok updated => simp [hupdate, errorOf] at herr
  | error err2 =>
    simp only [hupdate, errorOf, Option.some.injEq] at herr
    subst herr
    simp [ticketUpdater.deleteTicket, ticketUpdater.callUpdateTicket, hupdate]

theorem callTicket_replay (t : ticketUpdater σ) (ticketID : Int) (w1 : world σ)
    (calls0 pre : List rt.Call) (s0 : σ)
    (hcalls1 : w1.calls = calls0 ++ pre) (hstate1 : t.rtClient.replay pre s0 = w1.rtState) :
    (t.callTicket ticketID w1).2.calls = calls0 ++ (pre ++ [rt.Call.Ticket ticketID]) ∧
    t.rtClient.replay (pre ++ [rt.Call.Ticket ticketID]) s0 =
      (t.callTicket ticketID w1).2.rtState := by
  constructor
  · simp [ticketUpdater.callTicket, hcalls1]
  · rw [replay_append, hstate1]
    simp [rt.Client.replay, rt.Client.answer, ticketUpdater.callTicket]

theorem deleteOrCommentTicket_mutation_error (t : ticketUpdater σ)
    (newEvent oldEvent : Notification) (ticketID : Int) (w1 : world σ)
    (calls0 pre : List rt.Call) (s0 : σ)
    (hcalls1 : w1.calls = calls0 ++ pre) (hstate1 : t.rtClient.replay pre s0 = w1.rtState)
    (hpre : ∀ c ∈ pre, c.isMutation = false)
    (lookups : List rt.Call) (m : rt.Call) (err : String)
    (hcalls : (t.deleteOrCommentTicket newEvent oldEvent ticketID w1).2.calls =
      calls0 ++ lookups ++ [m])
    (hmutation : m.isMutation = true)
    (herr : (t.rtClient.answer m (t.rtClient.replay lookups s0)).1 = some err) :
    (t.deleteOrCommentTicket newEvent oldEvent ticketID w1).1 = some err ∧
    (t.deleteOrCommentTicket newEvent oldEvent ticketID w1).2.cache = w1.cache := by
  obtain ⟨hcalls2, hstate2⟩ := callTicket_replay t ticketID w1 calls0 pre s0 hcalls1 hstate1
  have hcache2 : (t.callTicket ticketID w1).2.cache = w1.cache := rfl
  unfold ticketUpdater.deleteOrCommentTicket at hcalls ⊢
  cases hlook : (t.callTicket ticketID w1).1 with
  | error err2 =>
    exfalso
    rw [← Prod.mk.eta (p := t.callTicket ticketID w1), hlook] at hcalls
    simp only [] at hcalls
    rw [hcalls2] at hcalls
    have hmem := calls_last_mem hcalls
    rcases List.mem_append.mp hmem with h | h
    · rw [hpre m h] at hmutation; cases hmutation
    · simp only [List.mem_singleton] at h
      rw [h] at hmutation
      cases hmutation
  | ok old =>
    rw [← Prod.mk.eta (p := t.callTicket ticketID w1), hlook] at hcalls ⊢
    simp only [] at hcalls ⊢
    by_cases howner : old.Owner = t.nobody
    · simp only [howner, if_true] at hcalls ⊢
      rw [← hcache2]
      exact deleteTicket_mutation_error t newEvent oldEvent ticketID _ calls0 _ s0 hcalls2
        hstate2 lookups m err hcalls herr
    · simp only [howner, if_false] at hcalls ⊢
      have hcalls3 : (t.commentTicket newEvent oldEvent ticketID (t.callTicket ticketID w1).2).2.calls =
          calls0 ++ lookups ++ [m] := by
        rw [← hcalls]
        rcases hres : t.commentTicket newEvent oldEvent ticketID (t.callTicket ticketID w1).2 with
          ⟨res, w3⟩
        cases res <;> rfl
      obtain ⟨h1, h2⟩ := commentTicket_mutation_error t newEvent oldEvent ticketID _ calls0 _ s0
        hcalls2 hstate2 lookups m err hcalls3 herr
      rw [← Prod.mk.eta (p := t.commentTicket newEvent oldEvent ticketID (t.callTicket ticketID w1).2),
        h1]
      simp only []
      exact ⟨trivial, by rw [h2, hcache2]⟩

theorem lookups_only_absurd {calls0 pre lookups : List rt.Call} {m : rt.Call}
    (hpre : ∀ c ∈ pre, c.isMutation = false)
    (hcalls : calls0 ++ pre = calls0 ++ lookups ++ [m]) (hmutation : m.isMutation = true) :
    False := by
  rw [hpre m (calls_last_mem hcalls)] at hmutation
  cases hmutation

/-- C12: if the last call that `updateTicket` issues is a mutation of the
ticket system (create, comment or status update), issued after the lookups
`lookups`, and the client answers that mutation with the error `err` in the
ticket-system state that the lookups lead to, then `updateTicket` returns
`err` and the cache is equal to the cache before the call: no entry is written
or removed. -/
theorem updateTicket_mutation_error (t : ticketUpdater σ) (e : Notification) (w : world σ)
    (lookups : List rt.Call) (m : rt.Call) (err : String)
    (hcalls : (t.updateTicket e w).2.calls = w.calls ++ lookups ++ [m])
    (hmutation : m.isMutation = true)
    (herr : (t.rtClient.answer m (t.rtClient.replay lookups w.rtState)).1 = some err) :
    (t.updateTicket e w).1 = some err ∧ (t.updateTicket e w).2.cache = w.cache := by
  have hnil : w.calls = w.calls ++ [] := by simp
  have hpre1 : ∀ X, ∀ c ∈ [rt.Call.Ticket X], c.isMutation = false := by
    intro X c hc
    simp only [List.mem_singleton] at hc
    rw [hc]; rfl
  cases hget : w.cache.getEventTicket e with
  | error err0 =>
    exfalso
    have hrun : t.updateTicket e w = (some err0, w) := by
      simp [ticketUpdater.updateTicket, hget]
    rw [hrun] at hcalls
    simp at hcalls
  | ok found =>
    by_cases hpf : t.pf e = true
    · cases found with
      | none =>
        by_cases hstate : e.CheckResult.State = StateOK
        · exfalso
          have hrun : t.updateTicket e w = (none, w) := by
            simp [ticketUpdater.updateTicket, hget, hpf, ticketUpdater.newEvent, hstate]
          rw [hrun] at hcalls
          simp at hcalls
        · have hrun : t.updateTicket e w = t.createTicket e w := by
            simp [ticketUpdater.updateTicket, hget, hpf, ticketUpdater.newEvent, hstate]
          rw [hrun] at hcalls ⊢
          exact createTicket_mutation_error t e w w.calls [] w.rtState hnil rfl lookups m err
            hcalls herr
      | some et =>
        rw [updateTicket_of_entry t e w et hget] at hcalls ⊢
        simp only [hpf, if_true] at hcalls ⊢
        obtain ⟨hcalls1, hstate1⟩ := callTicket_replay t et.TicketID w w.calls [] w.rtState hnil rfl
        simp only [List.nil_append] at hcalls1 hstate1
        have hcreate : t.oldEvent e et.Event et.TicketID w =
            t.createTicket e (t.callTicket et.TicketID w).2 →
            (t.oldEvent e et.Event et.TicketID w).1 = some err ∧
              (t.oldEvent e et.Event et.TicketID w).2.cache = w.cache := by
          intro hrun
          rw [hrun] at hcalls ⊢
          exact createTicket_mutation_error t e _ w.calls [rt.Call.Ticket et.TicketID] w.rtState
            hcalls1 hstate1 lookups m err hcalls herr
        cases hlook : (t.callTicket et.TicketID w).1 with
        | error err2 =>
          apply hcreate
          unfold ticketUpdater.oldEvent
          rw [← Prod.mk.eta (p := t.callTicket et.TicketID w), hlook]
        | ok old =>
          by_cases hdel : old.Status = "deleted"
          · apply hcreate
            unfold ticketUpdater.oldEvent
            rw [← Prod.mk.eta (p := t.callTicket et.TicketID w), hlook]
            simp [hdel]
          · by_cases hstate : e.CheckResult.State = StateOK
            · have hrun : t.oldEvent e et.Event et.TicketID w =
                  t.deleteOrCommentTicket e et.Event et.TicketID (t.callTicket et.TicketID w).2 := by
                unfold ticketUpdater.oldEvent
                rw [← Prod.mk.eta (p := t.callTicket et.TicketID w), hlook]
                simp [hdel, hstate]
              rw [hrun] at hcalls ⊢
              exact deleteOrCommentTicket_mutation_error t e et.Event et.TicketID _ w.calls
                [rt.Call.Ticket et.TicketID] w.rtState hcalls1 hstate1 (hpre1 et.TicketID)
                lookups m err hcalls hmutation herr
            · by_cases hsame : e.CheckResult.State = et.Event.CheckResult.State
              · exfalso
                have hstate2 : ¬ et.Event.CheckResult.State = StateOK :=
                  fun h => hstate (hsame.trans h)
                have hrun : t.oldEvent e et.Event et.TicketID w =
                    (none, (t.callTicket et.TicketID w).2) := by
                  unfold ticketUpdater.oldEvent
                  rw [← Prod.mk.eta (p := t.callTicket et.TicketID w), hlook]
                  simp [hdel, hsame, hstate2]
                rw [hrun] at hcalls
                simp only [] at hcalls
                rw [hcalls1] at hcalls
                exact lookups_only_absurd (hpre1 et.TicketID) hcalls hmutation
              · have hrun : t.oldEvent e et.Event et.TicketID w =
                    t.commentTicket e et.Event et.TicketID (t.callTicket et.TicketID w).2 := by
                  unfold ticketUpdater.oldEvent
                  rw [← Prod.mk.eta (p := t.callTicket et.TicketID w), hlook]
                  simp [hdel, hsame, hstate]
                rw [hrun] at hcalls ⊢
                exact commentTicket_mutation_error t e et.Event et.TicketID _ w.calls
                  [rt.Call.Ticket et.TicketID] w.rtState hcalls1 hstate1 lookups m err hcalls herr
    · exfalso
      have hrun : t.updateTicket e w = (none, w) := by
        simp [ticketUpdater.updateTicket, hget, hpf]
      rw [hrun] at hcalls
      simp at hcalls

theorem updateTicket_mutation_error_witness :
    (refusingUpdater.updateTicket (hostEvent StateWarning "slow")
      ⟨singleCache (hostEvent StateCritical "down") 1, [.ok (storedTicket 1 "alice" "open")],
        []⟩).1 = some "comment refused" ∧
    (refusingUpdater.updateTicket (hostEvent StateWarning "slow")
      ⟨singleCache (hostEvent StateCritical "down") 1, [.ok (storedTicket 1 "alice" "open")],
        []⟩).2.cache = singleCache (hostEvent StateCritical "down") 1 :=
  updateTicket_mutation_error refusingUpdater (hostEvent StateWarning "slow")
    ⟨singleCache (hostEvent StateCritical "down") 1, [.ok (storedTicket 1 "alice" "open")], []⟩
    [rt.Call.Ticket 1]
    (rt.Call.CommentTicket 1 (formatEventComment (hostEvent StateWarning "slow")))
    "comment refused" (by decide) rfl rfl
